import Mathlib

/-!
# Raft group 0 bootstrap: discovery, peer exchange and membership workflows

A shallow embedding of `service/raft/raft_group0.cc`.

* Futures and coroutines become explicit state passing: every operation takes the
  orchestrator state and returns the new state together with a `result`.
* Everything the program observes from outside (RPC replies, completion order of a
  fan-out, sleeps, fresh UUIDs, configuration entries replicated by the leader) is read
  from an `environment` of oracles, indexed by the logical clock kept in the state.
* Every externally visible action (storage access, RPC, server construction) is appended
  to the `trace` of the state.
* Loops take fuel; running out of fuel is the separate result `out_of_fuel`.
* All operations run on shard 0, so the `this_shard_id() == 0` assertions are not modelled.
-/

namespace service

/-! ## Identifiers, addresses, wire types -/

/-- A `utils::UUID`; the null UUID is `0`. -/
abbrev UUID := Nat

/-- The type `raft::server_id`. -/
structure server_id where
  id : UUID
deriving DecidableEq, Repr

/-- The type `raft::group_id`. -/
structure group_id where
  id : UUID
deriving DecidableEq, Repr

/-- The conversion `operator bool` of `raft::server_id`: the id is not the null UUID. -/
def server_id.to_bool (i : server_id) : Bool := i.id != 0

/-- The conversion `operator bool` of `raft::group_id`: the id is not the null UUID. -/
def group_id.to_bool (g : group_id) : Bool := g.id != 0

/-- The type `bytes`. -/
abbrev bytes := List Nat

/-- The type `raft::server_info`: opaque bytes carrying the node's network location. -/
abbrev server_info := bytes

/-- The type `gms::inet_address`. -/
abbrev inet_address := Nat

/-- The type `raft::server_address`. -/
structure server_address where
  id : server_id
  info : server_info
deriving DecidableEq, Repr

/-- The type `service::group0_info`. -/
structure group0_info where
  group0_id : group_id
  addr : server_address
deriving DecidableEq, Repr

/-- The type `discovery::peer_list`. -/
abbrev peer_list := List server_address

/-- The type `discovery::peer_set`, an unordered set; the list holds its elements. -/
abbrev peer_set := List server_address

/-- The type `discovery::request_list`. -/
abbrev request_list := List (server_address × peer_list)

/-- The type `discovery::tick_output`. -/
inductive tick_output where
  | i_am_leader
  | pause
  | request_list (l : service.request_list)
deriving DecidableEq, Repr

/-- The type `service::group0_peer_exchange`: the reply of the peer-exchange verb. -/
inductive group0_peer_exchange where
  | monostate
  | peer_list (l : service.peer_list)
  | group0_info (i : service.group0_info)
deriving DecidableEq, Repr

/-- The type `raft::config_member`. -/
structure config_member where
  addr : server_address
  can_vote : Bool
deriving DecidableEq, Repr

/-- The type `raft::configuration`, as far as the orchestrator uses it: the set `current`
of members. -/
structure configuration where
  current : List config_member
deriving DecidableEq, Repr

/-- Modelled from the spec: `raft::configuration::contains` (raft/raft.hh) is not under
src/; a node is a member when the configuration lists its identity. -/
def configuration.contains (c : configuration) (id : server_id) : Bool :=
  c.current.any (fun m => m.addr.id == id)

/-- Modelled from the spec: `raft::configuration::can_vote` (raft/raft.hh) is not under
src/; a node can vote when the configuration lists it as a voter (voters count toward
quorum, non-voters do not). -/
def configuration.can_vote (c : configuration) (id : server_id) : Bool :=
  c.current.any (fun m => m.addr.id == id && m.can_vote)

/-! ## Failures -/

/-- The exceptions the orchestrator raises or receives. -/
inductive error where
  /-- The failure raised by `on_internal_error`. -/
  | internal_error
  /-- A failed `assert`. -/
  | assertion_failed
  /-- The `std::runtime_error` "Can't add server to two clusters (g and g2)". -/
  | two_clusters (g g2 : group_id)
  /-- The `std::runtime_error` "Can't invoke removenode on a node which is not part of
  the cluster". -/
  | not_part_of_cluster
  /-- A `std::runtime_error` raised by the transport (connection closed, timeout). -/
  | transport (code : Nat)
  /-- The exception `seastar::gate_closed_exception`. -/
  | gate_closed
  /-- The exception `seastar::sleep_aborted`. -/
  | sleep_aborted
  /-- Any other `std::exception`. -/
  | other (code : Nat)
deriving DecidableEq, Repr

/-- The test `dynamic_cast<std::runtime_error*>(&e)` / `catch (std::runtime_error&)`. -/
def error.is_runtime_error : error → Bool
  | .two_clusters _ _ => true
  | .not_part_of_cluster => true
  | .transport _ => true
  | _ => false

/-- The outcome of a call: a value, an exception, or no answer within the fuel given. -/
inductive result (α : Type) where
  | value (a : α)
  | thrown (e : error)
  | out_of_fuel
deriving DecidableEq, Repr

/-- The outcome of one RPC as seen by the sender. -/
inductive rpc_result (α : Type) where
  | reply (a : α)
  | failure (e : error)
deriving DecidableEq, Repr

/-! ## Observable actions -/

/-- One externally visible action of the orchestrator. -/
inductive event where
  | get_raft_server_id
  | set_raft_server_id (id : server_id)
  | get_raft_group0_id
  | set_raft_group0_id (g : group_id)
  | load_discovered_peers
  | store_discovered_peers (peers : peer_set)
  | discovery_made (peers : peer_list)
  | discovery_stopped
  | send_group0_peer_exchange (peer : inet_address) (peers : peer_list)
  | send_group0_modify_config (peer : inet_address) (gid : group_id)
      (add : List config_member) (del : List server_id)
  | modify_config (gid : group_id) (add : List config_member) (del : List server_id)
  | address_map_set (addr : server_address)
  | create_server (gid : group_id) (my_addr : server_address)
  | bootstrap (gid : group_id) (initial_configuration : configuration)
  | start_server_for_group (gid : group_id)
  | found_group0 (g0_info : group0_info)
  | sleep
deriving DecidableEq, Repr

/-- The group identifiers returned by the discoveries recorded in a trace, in order. -/
def found_group0_ids (trace : List event) : List group_id :=
  trace.filterMap (fun e =>
    match e with
    | .found_group0 g0_info => some g0_info.group0_id
    | _ => none)

/-- The descriptors returned by the discoveries recorded in a trace, in order. -/
def found_descriptors (trace : List event) : List group0_info :=
  trace.filterMap (fun e =>
    match e with
    | .found_group0 g0_info => some g0_info
    | _ => none)

/-- The descriptor returned by the last discovery recorded in a trace: the group and the
leader that `join_group0` holds in `g0_info` from then on. -/
def last_found_group0 (trace : List event) : Option group0_info :=
  (found_descriptors trace).getLast?

/-- What the identifiers found by the iterations of the loop of `join_group0` look like
once the identifier `g` is fixed: they all equal `g`, or the loop threw the two-clusters
error at one that differs. -/
def same_cluster_or_thrown (g : group_id) (ids : List group_id) (res : result group_id) :
    Prop :=
  (∀ x ∈ ids, x = g) ∨
    ∃ g2, g2 ≠ g ∧ (∀ x ∈ ids, x = g ∨ x = g2) ∧ res = .thrown (.two_clusters g g2)

/-- The actions that are network calls. -/
def event.is_network_call : event → Bool
  | .send_group0_peer_exchange _ _ => true
  | .send_group0_modify_config _ _ _ _ => true
  | _ => false

/-- The actions that belong to discovery: constructing or stopping a persistent discovery
instance, its storage accesses and its peer-exchange requests. -/
def event.is_discovery : event → Bool
  | .load_discovered_peers => true
  | .store_discovered_peers _ => true
  | .discovery_made _ => true
  | .discovery_stopped => true
  | .send_group0_peer_exchange _ _ => true
  | _ => false

/-- The actions that ask for a configuration change, remotely or on the local engine. -/
def event.is_modify_config : event → Bool
  | .send_group0_modify_config _ _ _ _ => true
  | .modify_config _ _ _ => true
  | _ => false

/-- The accesses to durable local storage. -/
def event.is_storage_access : event → Bool
  | .get_raft_server_id => true
  | .set_raft_server_id _ => true
  | .get_raft_group0_id => true
  | .set_raft_group0_id _ => true
  | .load_discovered_peers => true
  | .store_discovered_peers _ => true
  | .bootstrap _ _ => true
  | _ => false

/-! ## Collaborators whose code is not part of the sources -/

/-- The parts of the repository that `raft_group0.cc` calls but that are not under src/,
taken as parameters: the pure discovery state machine (`D`, raft/discovery.hh) with the
key equality of its peer set, the address map (`AM`, raft_address_map.hh) and the two
address conversions. -/
structure collaborators (D AM : Type) where
  /-- The constructor `discovery::discovery(self, seeds)`. -/
  discovery_new : server_address → peer_list → D
  /-- The call `discovery::request(peers)`. -/
  discovery_request : D → peer_list → D × Option peer_list
  /-- The call `discovery::response(from, peers)`. -/
  discovery_response : D → server_address → peer_list → D
  /-- The call `discovery::tick()`. -/
  discovery_tick : D → D × tick_output
  /-- The call `discovery::peers()`. -/
  discovery_peers : D → peer_set
  /-- The key equality of `discovery::peer_set`. -/
  peer_key_eq : server_address → server_address → Bool
  /-- The call `raft_address_map::set(addr)`. -/
  address_map_set : AM → server_address → AM
  /-- The call `raft_address_map::get_server_address(id)`. -/
  get_server_address : AM → server_id → server_address
  /-- The call `raft_address_map::find_replace_id(addr, id)`. -/
  find_replace_id : AM → inet_address → server_id → Option server_id
  /-- The function `inet_addr_to_raft_addr`. -/
  inet_addr_to_raft_addr : inet_address → server_info
  /-- The function `raft_addr_to_inet_addr`. -/
  raft_addr_to_inet_addr : server_address → inet_address

/-- What the program observes from outside, by logical clock. -/
structure environment where
  /-- The result of `raft::server_id::create_random_id()`. -/
  create_random_id : Nat → server_id
  /-- The result of `utils::UUID_gen::get_time_UUID()`. -/
  get_time_UUID : Nat → UUID
  /-- Whether the abort source fires during `sleep_abortable`. -/
  sleep_aborted : Nat → Bool
  /-- The outcome of `send_group0_peer_exchange` to a peer, in the fan-out started at the
  given clock. -/
  peer_exchange_reply : Nat → server_address → rpc_result group0_peer_exchange
  /-- The time at which that request completes; requests complete in this order, ties in
  the order of the request list. -/
  completion_time : Nat → server_address → Nat
  /-- The outcome of `send_group0_modify_config`. -/
  modify_config_reply : Nat → rpc_result Unit
  /-- The outcome of the local engine's `modify_config`. -/
  local_modify_config : Nat → rpc_result Unit
  /-- The configuration the local engine has received from the leader, if any, by the time
  an RPC issued at the given clock completes. -/
  replicated : Nat → Option configuration

/-! ## Durable discovery table -/

/-- The partition `DISCOVERY_KEY` of `system.discovery`: rows keyed by the clustering key
`server_info`, each with the cell `raft_id`. -/
abbrev discovery_table := List (server_info × server_id)

/-- A `mutation` of that partition: the rows it writes. -/
abbrev mutation := List (server_info × server_id)

/-- The function `make_discovery_mutation`: one clustered row per peer, keyed by `p.info`,
with the cell `raft_id` set to `p.id`. -/
def make_discovery_mutation (peers : peer_set) : mutation :=
  peers.map (fun p => (p.info, p.id))

/-- Applying one row of a mutation: the row with that clustering key is written, the
other rows of the partition stay. -/
def apply_row (t : discovery_table) (row : server_info × server_id) : discovery_table :=
  if t.any (fun r => r.1 == row.1) then
    t.map (fun r => if r.1 == row.1 then row else r)
  else
    t ++ [row]

/-- The call `storage_proxy::mutate_locally` on the discovery table. -/
def mutate_locally (t : discovery_table) (m : mutation) : discovery_table :=
  m.foldl apply_row t

/-- The function `store_discovered_peers`. -/
def store_discovered_peers (qp : discovery_table) (peers : peer_set) : discovery_table :=
  mutate_locally qp (make_discovery_mutation peers)

/-- The call `peer_set::emplace`: the element is added unless an equal one is present. -/
def peer_set.emplace (key_eq : server_address → server_address → Bool)
    (s : peer_set) (a : server_address) : peer_set :=
  if s.any (fun b => key_eq b a) then s else s ++ [a]

/-- The function `load_discovered_peers`: every row is emplaced as
`(raft_id, server_info)`. -/
def load_discovered_peers {D AM : Type} (C : collaborators D AM)
    (qp : discovery_table) : peer_set :=
  qp.foldl (fun peers r => peer_set.emplace C.peer_key_eq peers ⟨r.2, r.1⟩) []

/-! ## Persistent discovery -/

/-- The class `persistent_discovery`: the wrapped state machine and the gate. The
reference `_qp` is the discovery table passed to each call. -/
structure persistent_discovery (D : Type) where
  _discovery : D
  _gate_closed : Bool
deriving DecidableEq, Repr

/-- The function `persistent_discovery::make`. -/
def persistent_discovery.make {D AM : Type} (C : collaborators D AM)
    (self : server_address) (seeds : peer_list) (qp : discovery_table) :
    persistent_discovery D :=
  let peers := load_discovered_peers C qp
  let peers := seeds.foldl (peer_set.emplace C.peer_key_eq) peers
  { _discovery := C.discovery_new self peers, _gate_closed := false }

/-- The function `persistent_discovery::request`. -/
def persistent_discovery.request {D AM : Type} (C : collaborators D AM)
    (self : persistent_discovery D) (qp : discovery_table) (peers : peer_list) :
    persistent_discovery D × discovery_table × Option peer_list :=
  if self._gate_closed then
    (self, qp, none)
  else
    let r := C.discovery_request self._discovery peers
    let self1 := { self with _discovery := r.1 }
    (self1, store_discovered_peers qp (C.discovery_peers self1._discovery), r.2)

/-- The function `persistent_discovery::response`. -/
def persistent_discovery.response {D AM : Type} (C : collaborators D AM)
    (self : persistent_discovery D) (src : server_address) (peers : peer_list) :
    persistent_discovery D :=
  { self with _discovery := C.discovery_response self._discovery src peers }

/-- The function `persistent_discovery::tick`. -/
def persistent_discovery.tick {D AM : Type} (C : collaborators D AM)
    (self : persistent_discovery D) (qp : discovery_table) :
    persistent_discovery D × discovery_table × tick_output :=
  let r := C.discovery_tick self._discovery
  let self1 := { self with _discovery := r.1 }
  (self1, store_discovered_peers qp (C.discovery_peers self1._discovery), r.2)

/-- The function `persistent_discovery::stop`. -/
def persistent_discovery.stop {D : Type} (self : persistent_discovery D) :
    persistent_discovery D :=
  { self with _gate_closed := true }

/-! ## The discovery run -/

/-- The local `struct tracker` of `persistent_discovery::run`; `g0_info` is what the
promise has been given, if anything. -/
structure tracker where
  is_set : Bool
  g0_info : Option (Except error (Option group0_info))

/-- The method `tracker::set_value`. -/
def tracker.set_value (t : tracker) (opt_g0_info : Option group0_info) : tracker :=
  if !t.is_set then
    { is_set := true, g0_info := some (.ok opt_g0_info) }
  else
    t

/-- The method `tracker::set_exception`, with the current exception `e`. -/
def tracker.set_exception (t : tracker) (e : error) : tracker :=
  if !t.is_set then
    { is_set := true, g0_info := some (.error e) }
  else
    t

/-- What `persistent_discovery::run` works on: the instance itself, the discovery table
behind `_qp`, the logical clock and the trace. -/
structure run_state (D : Type) where
  self : persistent_discovery D
  qp : discovery_table
  clock : Nat
  trace : List event

/-- Inserts a request into a list ordered by completion time, before the first request
that does not complete earlier. -/
def insert_by_time (time : server_address → Nat) (req : server_address × peer_list) :
    request_list → request_list
  | [] => [req]
  | r :: rs =>
    if time req.1 ≤ time r.1 then req :: r :: rs else r :: insert_by_time time req rs

/-- The order in which the requests of a fan-out complete. -/
def completion_order (time : server_address → Nat) : request_list → request_list
  | [] => []
  | r :: rs => insert_by_time time r (completion_order time rs)

/-- The body of the `parallel_for_each` lambda of `run` from the point where the request
to `req.first` completed with outcome `r`. -/
def run_reply {D AM : Type} (C : collaborators D AM)
    (acc : persistent_discovery D × tracker) (req : server_address × peer_list)
    (r : rpc_result group0_peer_exchange) : persistent_discovery D × tracker :=
  match r with
  | .reply reply =>
    if acc.2.is_set then
      acc
    else
      match reply with
      | .peer_list peers => (persistent_discovery.response C acc.1 req.1 peers, acc.2)
      | .group0_info g0_info => (acc.1, acc.2.set_value (some g0_info))
      | .monostate => acc
  | .failure e =>
    if e.is_runtime_error then acc else (acc.1, acc.2.set_exception e)

/-- The detached fan-out of `run`: every request of the list is sent, the replies are
handled in completion order, and at the end the tracker is given `nullopt`. -/
def run_round {D AM : Type} (C : collaborators D AM) (env : environment) (clock : Nat)
    (self : persistent_discovery D) (requests : request_list) :
    persistent_discovery D × tracker :=
  let done := (completion_order (env.completion_time clock) requests).foldl
    (fun acc req => run_reply C acc req (env.peer_exchange_reply clock req.1))
    (self, { is_set := false, g0_info := none })
  (done.1, done.2.set_value none)

/-- The function `persistent_discovery::run`. -/
def persistent_discovery.run {D AM : Type} (C : collaborators D AM) (env : environment) :
    Nat → server_address → run_state D → run_state D × result group0_info
  | 0, _, st => (st, .out_of_fuel)
  | fuel + 1, my_addr, st =>
    let t := persistent_discovery.tick C st.self st.qp
    let st1 : run_state D := { st with
      self := t.1, qp := t.2.1,
      trace := st.trace ++ [.store_discovered_peers (C.discovery_peers t.1._discovery)] }
    match t.2.2 with
    | .i_am_leader =>
      ({ st1 with clock := st1.clock + 1 },
        .value { group0_id := ⟨env.get_time_UUID st1.clock⟩, addr := my_addr })
    | .pause =>
      let st2 : run_state D := { st1 with
        clock := st1.clock + 1, trace := st1.trace ++ [.sleep] }
      if env.sleep_aborted st1.clock then
        (st2, .thrown .sleep_aborted)
      else
        persistent_discovery.run C env fuel my_addr st2
    | .request_list requests =>
      let r := run_round C env st1.clock st1.self requests
      let st2 : run_state D := { st1 with
        self := r.1, clock := st1.clock + 1,
        trace := st1.trace ++ requests.map (fun req =>
          .send_group0_peer_exchange (C.raft_addr_to_inet_addr req.1) req.2) }
      match r.2.g0_info with
      | some (.ok (some g0_info)) => (st2, .value g0_info)
      | some (.ok none) => persistent_discovery.run C env fuel my_addr st2
      | some (.error e) => (st2, .thrown e)
      | none => (st2, .out_of_fuel)

/-- The outcomes of a request that leave the tracker alone: a transport failure, and a
reply that carries no group-0 descriptor. -/
def rpc_result.leaves_tracker_unset : rpc_result group0_peer_exchange → Bool
  | .reply (.group0_info _) => false
  | .reply _ => true
  | .failure e => e.is_runtime_error

/-- The instance after the peer-list replies among the given completed requests have been
merged by `response`, in completion order. -/
def merge_peer_lists {D AM : Type} (C : collaborators D AM)
    (reply : server_address → rpc_result group0_peer_exchange) (completed : request_list)
    (self : persistent_discovery D) : persistent_discovery D :=
  completed.foldl (fun d req =>
    match reply req.1 with
    | .reply (.peer_list peers) => persistent_discovery.response C d req.1 peers
    | _ => d) self

/-- The state of `run` at the end of a round of the loop that fanned out `requests`:
the peers stored by `tick`, the requests sent, the clock advanced, and the instance as
the round left it. -/
def run_state.after_round {D AM : Type} (C : collaborators D AM) (st : run_state D)
    (requests : request_list) (self : persistent_discovery D) : run_state D :=
  { self := self,
    qp := (persistent_discovery.tick C st.self st.qp).2.1,
    clock := st.clock + 1,
    trace := st.trace ++ [.store_discovered_peers
        (C.discovery_peers (persistent_discovery.tick C st.self st.qp).1._discovery)] ++
      requests.map (fun req =>
        .send_group0_peer_exchange (C.raft_addr_to_inet_addr req.1) req.2) }

/-! ## The orchestrator state -/

/-- A `raft::server` as the orchestrator observes it. The orchestrator reads `id` and
`configuration`; `current_leader` is the engine's own knowledge of the leader. -/
structure raft_server where
  id : server_id
  configuration : configuration
  current_leader : server_id
deriving DecidableEq, Repr

/-- Modelled from the spec: `raft_group_registry` is not under src/; it holds the
consensus server bundle of every group, the address map, and names the bundle of
group 0 (exactly one bundle exists per process for group 0). -/
structure raft_group_registry (AM : Type) where
  is_enabled : Bool
  address_map : AM
  get_server : group_id → raft_server
  group0_id : group_id

/-- The call `raft_group_registry::group0()`. -/
def raft_group_registry.group0 {AM : Type} (r : raft_group_registry AM) : raft_server :=
  r.get_server r.group0_id

/-- The durable local storage behind `db::system_keyspace` and
`raft_sys_table_storage`: the scalars `raft_server_id` and `raft_group0_id` (null when
absent), the bootstrap flag, the discovery table, and the configuration persisted for
each group. -/
structure system_keyspace where
  raft_server_id : server_id
  raft_group0_id : group_id
  bootstrap_complete : Bool
  discovery : discovery_table
  raft_configuration : group_id → configuration

/-- The part of `gms::gossiper` the orchestrator reads. -/
structure gossiper where
  get_seeds : List inet_address
  get_broadcast_address : inet_address
deriving DecidableEq, Repr

/-- The member `_group0`: `std::variant<std::monostate, persistent_discovery,
raft::group_id>`, the bootstrap phase (not-started, discovering, joined). -/
inductive group0_variant (D : Type) where
  | monostate
  | persistent_discovery (d : service.persistent_discovery D)
  | group_id (g : service.group_id)
deriving DecidableEq, Repr

/-- The class `raft_group0` with the state of its collaborators. -/
structure raft_group0 (D AM : Type) where
  _group0 : group0_variant D
  _raft_gr : raft_group_registry AM
  _gossiper : gossiper
  _shutdown_gate_closed : Bool
  sys_ks : system_keyspace
  clock : Nat
  trace : List event

/-- Appends an action to the trace. -/
def raft_group0.log {D AM : Type} (s : raft_group0 D AM) (e : event) : raft_group0 D AM :=
  { s with trace := s.trace ++ [e] }

/-- The function `raft_group0::joined_group0`. -/
def raft_group0.joined_group0 {D AM : Type} (s : raft_group0 D AM) : Bool :=
  match s._group0 with
  | .group_id _ => true
  | _ => false

/-- The function `raft_group0::load_my_addr`. -/
def raft_group0.load_my_addr {D AM : Type} (C : collaborators D AM) (s : raft_group0 D AM) :
    raft_group0 D AM × result server_address :=
  let s1 := s.log .get_raft_server_id
  let id := s.sys_ks.raft_server_id
  if !id.to_bool then
    (s1, .thrown .internal_error)
  else
    (s1, .value ⟨id, C.inet_addr_to_raft_addr s._gossiper.get_broadcast_address⟩)

/-- The function `raft_group0::load_or_create_my_addr`. -/
def raft_group0.load_or_create_my_addr {D AM : Type} (C : collaborators D AM)
    (env : environment) (s : raft_group0 D AM) : raft_group0 D AM × server_address :=
  let s1 := s.log .get_raft_server_id
  let id := s.sys_ks.raft_server_id
  if id = ⟨0⟩ then
    let id := env.create_random_id s1.clock
    let s2 : raft_group0 D AM := { s1 with
      sys_ks := { s1.sys_ks with raft_server_id := id },
      clock := s1.clock + 1,
      trace := s1.trace ++ [.set_raft_server_id id] }
    (s2, ⟨id, C.inet_addr_to_raft_addr s._gossiper.get_broadcast_address⟩)
  else
    (s1, ⟨id, C.inet_addr_to_raft_addr s._gossiper.get_broadcast_address⟩)

/-- The type `raft_server_for_group`: the group and the identity of the server built
for it. -/
structure raft_server_for_group where
  gid : group_id
  server : server_id
deriving DecidableEq, Repr

/-- The function `raft_group0::create_server_for_group0`. -/
def raft_group0.create_server_for_group0 {D AM : Type} (C : collaborators D AM)
    (gid : group_id) (my_addr : server_address) (s : raft_group0 D AM) :
    raft_group0 D AM × raft_server_for_group :=
  let s1 : raft_group0 D AM := { s with
    _raft_gr := { s._raft_gr with
      address_map := C.address_map_set s._raft_gr.address_map my_addr },
    trace := s.trace ++ [.address_map_set my_addr, .create_server gid my_addr] }
  (s1, { gid := gid, server := my_addr.id })

/-- Modelled from the spec: `raft_sys_table_storage::bootstrap` is not under src/; it
persists the initial configuration of the group (bootstrap-with-initial-config). -/
def raft_group0.bootstrap {D AM : Type} (grp : raft_server_for_group)
    (initial_configuration : configuration) (s : raft_group0 D AM) : raft_group0 D AM :=
  { s with
    sys_ks := { s.sys_ks with
      raft_configuration := fun g =>
        if g = grp.gid then initial_configuration else s.sys_ks.raft_configuration g },
    trace := s.trace ++ [.bootstrap grp.gid initial_configuration] }

/-- Modelled from the spec: `raft_group_registry::start_server_for_group` is not under
src/; the bundle is registered as the one of group 0 and its server starts from the
configuration persisted for the group. -/
def raft_group0.start_server_for_group {D AM : Type} (grp : raft_server_for_group)
    (s : raft_group0 D AM) : raft_group0 D AM :=
  { s with
    _raft_gr := { s._raft_gr with
      get_server := fun g =>
        if g = grp.gid then
          { id := grp.server,
            configuration := s.sys_ks.raft_configuration grp.gid,
            current_leader := ⟨0⟩ }
        else s._raft_gr.get_server g,
      group0_id := grp.gid },
    trace := s.trace ++ [.start_server_for_group grp.gid] }

/-- The local engine of group `gid` takes over the configuration replicated to it while
an RPC issued at the current clock was in flight, and the clock advances. -/
def raft_group0.rpc_completed {D AM : Type} (env : environment) (gid : group_id)
    (s : raft_group0 D AM) : raft_group0 D AM :=
  match env.replicated s.clock with
  | some c =>
    { s with
      _raft_gr := { s._raft_gr with
        get_server := fun g =>
          if g = gid then { s._raft_gr.get_server gid with configuration := c }
          else s._raft_gr.get_server g },
      clock := s.clock + 1 }
  | none => { s with clock := s.clock + 1 }

/-! ## Discovery of group 0 -/

/-- The first part of `raft_group0::discover_group0`: the seeds are read from the
gossiper and `_group0` is given a fresh persistent discovery. -/
def raft_group0.discover_group0_enter {D AM : Type} (C : collaborators D AM)
    (my_addr : server_address) (s : raft_group0 D AM) : raft_group0 D AM :=
  let seeds : peer_list :=
    s._gossiper.get_seeds.map (fun seed => ⟨⟨0⟩, C.inet_addr_to_raft_addr seed⟩)
  let p_discovery := persistent_discovery.make C my_addr seeds s.sys_ks.discovery
  { s with
    _group0 := .persistent_discovery p_discovery,
    trace := s.trace ++ [.load_discovered_peers, .discovery_made seeds] }

/-- The `futurize_invoke` part of `raft_group0::discover_group0`: the shutdown gate is
held and `p_discovery.run` is driven on the instance stored in `_group0`. -/
def raft_group0.discover_group0_run {D AM : Type} (C : collaborators D AM)
    (env : environment) (fuel : Nat) (my_addr : server_address) (s : raft_group0 D AM) :
    raft_group0 D AM × result group0_info :=
  match s._group0 with
  | .persistent_discovery p_discovery =>
    if s._shutdown_gate_closed then
      (s, .thrown .gate_closed)
    else
      let r := persistent_discovery.run C env fuel my_addr
        { self := p_discovery, qp := s.sys_ks.discovery, clock := s.clock, trace := s.trace }
      ({ s with
          _group0 := .persistent_discovery r.1.self,
          sys_ks := { s.sys_ks with discovery := r.1.qp },
          clock := r.1.clock,
          trace := r.1.trace },
        r.2)
  | _ => (s, .thrown .internal_error)

/-- The call `p_discovery.stop()` of the `finally` block of `discover_group0`. -/
def raft_group0.discover_group0_stop {D AM : Type} (s : raft_group0 D AM) :
    raft_group0 D AM :=
  match s._group0 with
  | .persistent_discovery p_discovery =>
    { s with
      _group0 := .persistent_discovery p_discovery.stop,
      trace := s.trace ++ [.discovery_stopped] }
  | _ => s

/-- The `finally` block of `raft_group0::discover_group0`: the discovery is stopped and
`_group0` becomes `std::monostate`. -/
def raft_group0.discover_group0_finally {D AM : Type} (s : raft_group0 D AM) :
    raft_group0 D AM :=
  { s.discover_group0_stop with _group0 := .monostate }

/-- The function `raft_group0::discover_group0`. -/
def raft_group0.discover_group0 {D AM : Type} (C : collaborators D AM)
    (env : environment) (fuel : Nat) (my_addr : server_address) (s : raft_group0 D AM) :
    raft_group0 D AM × result group0_info :=
  let r := (s.discover_group0_enter C my_addr).discover_group0_run C env fuel my_addr
  match r.2 with
  | .out_of_fuel => r
  | res => (r.1.discover_group0_finally, res)

/-! ## Starting and joining group 0 -/

/-- The function `raft_group0::start_server_for_group0`. -/
def raft_group0.start_server_for_group0 {D AM : Type} (C : collaborators D AM)
    (group0_id : group_id) (s : raft_group0 D AM) : raft_group0 D AM × result Unit :=
  if group0_id = ⟨0⟩ then
    (s, .thrown .assertion_failed)
  else
    match s.load_my_addr C with
    | (s1, .value my_addr) =>
      let r := s1.create_server_for_group0 C group0_id my_addr
      let s2 := r.1.start_server_for_group r.2
      ({ s2 with _group0 := .group_id group0_id }, .value ())
    | (s1, .thrown e) => (s1, .thrown e)
    | (s1, .out_of_fuel) => (s1, .out_of_fuel)

/-- The first-discovery block of the loop of `join_group0`: the server is created,
bootstrapped with the initial configuration and started. -/
def raft_group0.join_group0_first {D AM : Type} (C : collaborators D AM)
    (g0_info : group0_info) (my_addr : server_address) (s : raft_group0 D AM) :
    raft_group0 D AM :=
  let initial_configuration : configuration :=
    if g0_info.addr.id = my_addr.id then { current := [⟨my_addr, true⟩] }
    else { current := [] }
  let r := s.create_server_for_group0 C g0_info.group0_id my_addr
  (r.1.bootstrap r.2 initial_configuration).start_server_for_group r.2

/-- How one iteration of the loop of `join_group0` ends: the loop is left (by `break`
with the identifier, or by an exception), or it goes round again with the server
pointer and the identifier it now holds. -/
inductive join_step (σ : Type) where
  | left (s : σ) (r : result group_id)
  | again (s : σ) (server : group_id) (group0_id : group_id)

/-- The state an iteration ends in. -/
def join_step.state {σ : Type} : join_step σ → σ
  | .left s _ => s
  | .again s _ _ => s

/-- The second half of the body of the loop of `raft_group0::join_group0`: the membership
check on `server`, and the modify-config request to the discovered leader when the check
fails. -/
def raft_group0.join_group0_membership {D AM : Type} (C : collaborators D AM)
    (env : environment) (server : group_id) (group0_id : group_id)
    (my_addr : server_address) (g0_info : group0_info) (s : raft_group0 D AM) :
    join_step (raft_group0 D AM) :=
  if (s._raft_gr.get_server server).configuration.contains my_addr.id then
    .left s (.value group0_id)
  else if s._shutdown_gate_closed then
    .left s (.thrown .gate_closed)
  else
    let reply := env.modify_config_reply s.clock
    let s3 := (s.log (.send_group0_modify_config (C.raft_addr_to_inet_addr g0_info.addr)
      group0_id [⟨my_addr, false⟩] [])).rpc_completed env server
    match reply with
    | .reply _ => .left s3 (.value group0_id)
    | .failure e =>
      if e.is_runtime_error then
        let s4 : raft_group0 D AM := { s3 with
          clock := s3.clock + 1, trace := s3.trace ++ [.sleep] }
        if env.sleep_aborted s3.clock then
          .left s4 (.thrown .sleep_aborted)
        else
          .again s4 server group0_id
      else
        .left s3 (.thrown e)

/-- The body of the loop of `raft_group0::join_group0` from the point where
`discover_group0` returned `g0_info`; `server` is the group of the server created by the
first iteration (`none` for `nullptr`). -/
def raft_group0.join_group0_iteration {D AM : Type} (C : collaborators D AM)
    (env : environment) (server : Option group_id) (group0_id : group_id)
    (my_addr : server_address) (g0_info : group0_info) (s : raft_group0 D AM) :
    join_step (raft_group0 D AM) :=
  let s1 := s.log (.found_group0 g0_info)
  if server.isSome && group0_id != g0_info.group0_id then
    .left s1 (.thrown (.two_clusters group0_id g0_info.group0_id))
  else
    let group0_id := g0_info.group0_id
    match server with
    | none =>
      (s1.join_group0_first C g0_info my_addr).join_group0_membership C env group0_id
        group0_id my_addr g0_info
    | some server =>
      s1.join_group0_membership C env server group0_id my_addr g0_info

/-- The `while (true)` loop of `raft_group0::join_group0`. The value returned is
`group0_id` at the `break`. -/
def raft_group0.join_group0_loop {D AM : Type} (C : collaborators D AM)
    (env : environment) (n : Nat) :
    Nat → Option group_id → group_id → server_address → raft_group0 D AM →
      raft_group0 D AM × result group_id
  | 0, _, _, _, s => (s, .out_of_fuel)
  | fuel + 1, server, group0_id, my_addr, s =>
    match s.discover_group0 C env n my_addr with
    | (s1, .out_of_fuel) => (s1, .out_of_fuel)
    | (s1, .thrown e) => (s1, .thrown e)
    | (s1, .value g0_info) =>
      match s1.join_group0_iteration C env server group0_id my_addr g0_info with
      | .left s2 r => (s2, r)
      | .again s2 server group0_id =>
        raft_group0.join_group0_loop C env n fuel (some server) group0_id my_addr s2

/-- The call `db::system_keyspace::set_raft_group0_id`. -/
def raft_group0.set_raft_group0_id {D AM : Type} (group0_id : group_id)
    (s : raft_group0 D AM) : raft_group0 D AM :=
  { s with
    sys_ks := { s.sys_ks with raft_group0_id := group0_id },
    trace := s.trace ++ [.set_raft_group0_id group0_id] }

/-- The two statements that end `raft_group0::join_group0`, in program order, as the
states they leave: first the state after
`co_await db::system_keyspace::set_raft_group0_id(group0_id.id)`, where the coroutine is
suspended and the peer-exchange handler can run, then the state after
`_group0 = group0_id`. -/
def raft_group0.join_group0_persist_steps {D AM : Type} (group0_id : group_id)
    (s : raft_group0 D AM) : List (raft_group0 D AM) :=
  let s1 := s.set_raft_group0_id group0_id
  let s2 : raft_group0 D AM := { s1 with _group0 := .group_id group0_id }
  [s1, s2]

/-- The end of `raft_group0::join_group0`: the state its two last statements end in. -/
def raft_group0.join_group0_persist {D AM : Type} (group0_id : group_id)
    (s : raft_group0 D AM) : raft_group0 D AM :=
  ((s.join_group0_persist_steps group0_id).getLast?).getD s

/-- The function `raft_group0::join_group0`. -/
def raft_group0.join_group0 {D AM : Type} (C : collaborators D AM) (env : environment)
    (fuel : Nat) (s : raft_group0 D AM) : raft_group0 D AM × result Unit :=
  if s.joined_group0 then
    (s, .thrown .assertion_failed)
  else
    let s1 := s.log .get_raft_group0_id
    let group0_id := s.sys_ks.raft_group0_id
    if group0_id.to_bool then
      s1.start_server_for_group0 C group0_id
    else
      let r := s1.load_or_create_my_addr C env
      match raft_group0.join_group0_loop C env fuel fuel none group0_id r.2 r.1 with
      | (s2, .value group0_id) => (s2.join_group0_persist group0_id, .value ())
      | (s2, .thrown e) => (s2, .thrown e)
      | (s2, .out_of_fuel) => (s2, .out_of_fuel)

/-- The function `raft_group0::setup_group0`; the argument `sys_ks` is the storage of
the state. -/
def raft_group0.setup_group0 {D AM : Type} (C : collaborators D AM) (env : environment)
    (fuel : Nat) (s : raft_group0 D AM) : raft_group0 D AM × result Unit :=
  if !s._raft_gr.is_enabled then
    (s, .value ())
  else if s.sys_ks.bootstrap_complete then
    let s1 := s.log .get_raft_group0_id
    let group0_id := s.sys_ks.raft_group0_id
    if group0_id.to_bool then
      s1.start_server_for_group0 C group0_id
    else
      (s1, .value ())
  else
    s.join_group0 C env fuel

/-! ## Membership changes -/

/-- The call `_raft_gr.group0().modify_config(add, del, &_abort_source)` on the local
engine. -/
def raft_group0.group0_modify_config {D AM : Type} (env : environment)
    (add : List config_member) (del : List server_id) (s : raft_group0 D AM) :
    raft_group0 D AM × result Unit :=
  let reply := env.local_modify_config s.clock
  let s1 := (s.log (.modify_config s._raft_gr.group0_id add del)).rpc_completed env
    s._raft_gr.group0_id
  match reply with
  | .reply _ => (s1, .value ())
  | .failure e => (s1, .thrown e)

/-- The function `raft_group0::become_voter`. -/
def raft_group0.become_voter {D AM : Type} (C : collaborators D AM) (env : environment)
    (s : raft_group0 D AM) : raft_group0 D AM × result Unit :=
  if !s._raft_gr.is_enabled || !s.joined_group0 then
    (s, .value ())
  else
    match s.load_my_addr C with
    | (s1, .value my_addr) =>
      match s1._group0 with
      | .group_id gid =>
        if !(s1._raft_gr.get_server gid).configuration.can_vote my_addr.id then
          if s1._shutdown_gate_closed then
            (s1, .thrown .gate_closed)
          else
            s1.group0_modify_config env [⟨my_addr, true⟩] []
        else
          (s1, .value ())
      | _ => (s1, .thrown .assertion_failed)
    | (s1, .thrown e) => (s1, .thrown e)
    | (s1, .out_of_fuel) => (s1, .out_of_fuel)

/-- The function `raft_group0::remove_from_group0`. -/
def raft_group0.remove_from_group0 {D AM : Type} (C : collaborators D AM)
    (env : environment) (fuel : Nat) (node : inet_address) (s : raft_group0 D AM) :
    raft_group0 D AM × result Unit :=
  if !s._raft_gr.is_enabled then
    (s, .value ())
  else
    let s1 := s.log .get_raft_server_id
    let my_id := s.sys_ks.raft_server_id
    if my_id = ⟨0⟩ then
      (s1, .thrown .not_part_of_cluster)
    else
      match C.find_replace_id s1._raft_gr.address_map node my_id with
      | none => (s1, .value ())
      | some remove_addr =>
        if s1._shutdown_gate_closed then
          (s1, .thrown .gate_closed)
        else if s1.joined_group0 then
          s1.group0_modify_config env [] [remove_addr]
        else
          match s1.discover_group0 C env fuel ⟨my_id, []⟩ with
          | (s2, .value g0_info) =>
            if g0_info.addr.id = my_id then
              (s2, .value ())
            else
              let reply := env.modify_config_reply s2.clock
              let s3 : raft_group0 D AM := { s2 with
                clock := s2.clock + 1,
                trace := s2.trace ++ [.send_group0_modify_config
                  (C.raft_addr_to_inet_addr g0_info.addr) g0_info.group0_id [] [remove_addr]] }
              match reply with
              | .reply _ => (s3, .value ())
              | .failure e => (s3, .thrown e)
          | (s2, .thrown e) => (s2, .thrown e)
          | (s2, .out_of_fuel) => (s2, .out_of_fuel)

/-! ## The peer-exchange handler -/

/-- The function `raft_group0::peer_exchange`. -/
def raft_group0.peer_exchange {D AM : Type} (C : collaborators D AM)
    (peers : peer_list) (s : raft_group0 D AM) : raft_group0 D AM × group0_peer_exchange :=
  match s._group0 with
  | .monostate => (s, .monostate)
  | .persistent_discovery d =>
    let r := d.request C s.sys_ks.discovery peers
    let s1 : raft_group0 D AM := { s with
      _group0 := .persistent_discovery r.1,
      sys_ks := { s.sys_ks with discovery := r.2.1 },
      trace := if d._gate_closed then s.trace
        else s.trace ++ [.store_discovered_peers (C.discovery_peers r.1._discovery)] }
    match r.2.2 with
    | some response => (s1, .peer_list response)
    | none => (s1, .monostate)
  | .group_id group0_id =>
    (s, .group0_info
      { group0_id := group0_id,
        addr := C.get_server_address s._raft_gr.address_map s._raft_gr.group0.id })

/-! ## A concrete instance of the collaborators

A small discovery state machine and address map, used to evaluate the workflows on
concrete inputs. -/

/-- A discovery state machine over a list of peers: it elects itself as soon as it knows
no peer besides itself, and otherwise asks every peer. -/
def toy_discovery_tick (d : server_address × peer_list) :
    (server_address × peer_list) × tick_output :=
  if d.2.all (fun p => p.info == d.1.info) then (d, .i_am_leader)
  else (d, .request_list ((d.2.filter (fun p => p.info != d.1.info)).map (fun p => (p, d.2))))

/-- The collaborators instance: peers are keyed by `info`, the address map is a list of
addresses. -/
def toy : collaborators (server_address × peer_list) (List server_address) where
  discovery_new := fun self seeds => (self, seeds)
  discovery_request := fun d peers =>
    ((d.1, peers.foldl (peer_set.emplace (fun a b => a.info == b.info)) d.2), some d.2)
  discovery_response := fun d _ peers =>
    (d.1, peers.foldl (peer_set.emplace (fun a b => a.info == b.info)) d.2)
  discovery_tick := toy_discovery_tick
  discovery_peers := fun d => d.2
  peer_key_eq := fun a b => a.info == b.info
  address_map_set := fun m a => a :: m.filter (fun b => b.id != a.id)
  get_server_address := fun m id => (m.find? (fun b => b.id == id)).getD ⟨id, []⟩
  find_replace_id := fun m addr self =>
    (m.find? (fun b => b.info == [addr] && b.id != self)).map (fun b => b.id)
  inet_addr_to_raft_addr := fun a => [a]
  raft_addr_to_inet_addr := fun a => a.info.headD 0

/-- An environment in which every RPC fails with a transport error and nothing is
replicated. -/
def quiet_env : environment where
  create_random_id := fun n => ⟨n + 100⟩
  get_time_UUID := fun n => n + 1000
  sleep_aborted := fun _ => false
  peer_exchange_reply := fun _ _ => .failure (.transport 0)
  completion_time := fun _ _ => 0
  modify_config_reply := fun _ => .failure (.transport 0)
  local_modify_config := fun _ => .reply ()
  replicated := fun _ => none

/-- The state of a process that has just started: nothing persisted, nothing running. -/
def fresh_node (self : inet_address) (seeds : List inet_address) :
    raft_group0 (server_address × peer_list) (List server_address) where
  _group0 := .monostate
  _raft_gr :=
    { is_enabled := true,
      address_map := [],
      get_server := fun _ => { id := ⟨0⟩, configuration := ⟨[]⟩, current_leader := ⟨0⟩ },
      group0_id := ⟨0⟩ }
  _gossiper := { get_seeds := seeds, get_broadcast_address := self }
  _shutdown_gate_closed := false
  sys_ks :=
    { raft_server_id := ⟨0⟩,
      raft_group0_id := ⟨0⟩,
      bootstrap_complete := false,
      discovery := [],
      raft_configuration := fun _ => ⟨[]⟩ }
  clock := 0
  trace := []

/-- An environment with overlapping seeds: the peer answers the first peer exchange with
the descriptor of group 5 and every later one with the descriptor of group 6, and every
modify-config request fails with a transport error. -/
def overlapping_seeds_env : environment :=
  { quiet_env with
    peer_exchange_reply := fun clock _ =>
      if clock ≤ 1 then .reply (.group0_info ⟨⟨5⟩, ⟨⟨2⟩, [8]⟩⟩)
      else .reply (.group0_info ⟨⟨6⟩, ⟨⟨3⟩, [8]⟩⟩) }

/-- A persistent discovery of node 1 (at address 7) that so far knows only itself, with
its gate open. -/
def lone_discovery : persistent_discovery (server_address × peer_list) :=
  { _discovery := (⟨⟨1⟩, [7]⟩, [⟨⟨1⟩, [7]⟩]), _gate_closed := false }

/-- The discovery table holding the one row of node 1. -/
def lone_table : discovery_table := [([7], ⟨1⟩)]

/-- A node that has joined group 5 as a follower: its own identity is 1 (at address 7),
the leader known to its engine is 2 (at address 8). -/
def joined_follower : raft_group0 (server_address × peer_list) (List server_address) :=
  { fresh_node 7 [7, 8] with
    _group0 := .group_id ⟨5⟩,
    _raft_gr :=
      { is_enabled := true,
        address_map := [⟨⟨1⟩, [7]⟩, ⟨⟨2⟩, [8]⟩],
        get_server := fun _ =>
          { id := ⟨1⟩,
            configuration := ⟨[⟨⟨⟨2⟩, [8]⟩, true⟩, ⟨⟨⟨1⟩, [7]⟩, false⟩]⟩,
            current_leader := ⟨2⟩ },
        group0_id := ⟨5⟩ },
    sys_ks := { (fresh_node 7 [7, 8]).sys_ks with
      raft_server_id := ⟨1⟩, raft_group0_id := ⟨5⟩, bootstrap_complete := true } }

/-- An environment in which every peer-exchange request fails with an unexpected,
non-transport failure. -/
def failing_env : environment :=
  { quiet_env with peer_exchange_reply := fun _ _ => .failure (.other 3) }

/-- An environment in which every peer answers the peer exchange with the descriptor of
group 5 led by node 2 (at address 8), the leader accepts every modify-config request,
and nothing is replicated to the local engine. -/
def welcoming_env : environment :=
  { quiet_env with
    peer_exchange_reply := fun _ _ => .reply (.group0_info ⟨⟨5⟩, ⟨⟨2⟩, [8]⟩⟩),
    modify_config_reply := fun _ => .reply () }

/-- A node in phase joined(5) with identity 1 whose group-0 configuration lists only
node 2: the node is not a member of the configuration at all. -/
def joined_outsider : raft_group0 (server_address × peer_list) (List server_address) :=
  { joined_follower with
    _raft_gr := { joined_follower._raft_gr with
      get_server := fun _ =>
        { id := ⟨1⟩,
          configuration := ⟨[⟨⟨⟨2⟩, [8]⟩, true⟩]⟩,
          current_leader := ⟨2⟩ } } }

/-- A node that completed bootstrap and has group 5 persisted, but whose local identity
is missing from storage. -/
def restarted_without_identity :
    raft_group0 (server_address × peer_list) (List server_address) :=
  { fresh_node 7 [7, 8] with
    sys_ks := { (fresh_node 7 [7, 8]).sys_ks with
      raft_group0_id := ⟨5⟩, bootstrap_complete := true } }

/-- The run state of node 1 (at address 7) that knows the peers at addresses 8 and 9 and
has nothing stored yet. -/
def three_peer_run : run_state (server_address × peer_list) :=
  { self :=
      { _discovery := (⟨⟨1⟩, [7]⟩, [⟨⟨1⟩, [7]⟩, ⟨⟨0⟩, [8]⟩, ⟨⟨0⟩, [9]⟩]),
        _gate_closed := false },
    qp := [], clock := 0, trace := [] }

/-- An environment in which the peer at address 8 answers first, with the descriptor of
group 5, and the request to the peer at address 9 completes later with an unexpected,
non-transport failure. -/
def descriptor_then_failure_env : environment :=
  { quiet_env with
    peer_exchange_reply := fun _ peer =>
      if peer.info = [8] then .reply (.group0_info ⟨⟨5⟩, ⟨⟨2⟩, [8]⟩⟩)
      else .failure (.other 3),
    completion_time := fun _ peer => if peer.info = [8] then 1 else 2 }

/-- An environment in which the peer at address 9 answers first, with a peer list naming
node 3 at address 10, the peer at address 8 answers second, with the descriptor of
group 5. -/
def peer_list_then_descriptor_env : environment :=
  { quiet_env with
    peer_exchange_reply := fun _ peer =>
      if peer.info = [8] then .reply (.group0_info ⟨⟨5⟩, ⟨⟨2⟩, [8]⟩⟩)
      else .reply (.peer_list [⟨⟨3⟩, [10]⟩]),
    completion_time := fun _ peer => if peer.info = [8] then 2 else 1 }

/-- C1: `peer_exchange` answers by phase. In not-started it answers no-info; in joined(g)
it answers group-0-info whose group identifier is g; in discovering it answers
peer-list L when the persistent discovery's `request` returns L and no-info when it
returns nothing. A peer-list answer occurs only in discovering, a group-0-info answer
only in joined. -/
theorem peer_exchange_answers_by_phase {D AM : Type} (C : collaborators D AM)
    (peers : peer_list) (s : raft_group0 D AM) :
    (s._group0 = .monostate → (s.peer_exchange C peers).2 = .monostate) ∧
    (∀ g, s._group0 = .group_id g →
      ∃ addr, (s.peer_exchange C peers).2 = .group0_info ⟨g, addr⟩) ∧
    (∀ d, s._group0 = .persistent_discovery d →
      (∀ L, (d.request C s.sys_ks.discovery peers).2.2 = some L →
        (s.peer_exchange C peers).2 = .peer_list L) ∧
      ((d.request C s.sys_ks.discovery peers).2.2 = none →
        (s.peer_exchange C peers).2 = .monostate)) ∧
    (∀ L, (s.peer_exchange C peers).2 = .peer_list L →
      ∃ d, s._group0 = .persistent_discovery d) ∧
    (∀ i, (s.peer_exchange C peers).2 = .group0_info i → s._group0 = .group_id i.group0_id) := by
  refine ⟨?_, ?_, ?_, ?_, ?_⟩
  · intro h
    simp [raft_group0.peer_exchange, h]
  · intro g h
    exact ⟨C.get_server_address s._raft_gr.address_map s._raft_gr.group0.id,
      by simp [raft_group0.peer_exchange, h]⟩
  · intro d h
    constructor
    · intro L hL
      simp [raft_group0.peer_exchange, h, hL]
    · intro hL
      simp [raft_group0.peer_exchange, h, hL]
  · intro L hL
    cases h : s._group0 with
    | monostate => simp [raft_group0.peer_exchange, h] at hL
    | persistent_discovery d => exact ⟨d, rfl⟩
    | group_id g => simp [raft_group0.peer_exchange, h] at hL
  · intro i hi
    cases h : s._group0 with
    | monostate => simp [raft_group0.peer_exchange, h] at hi
    | persistent_discovery d =>
      simp only [raft_group0.peer_exchange, h] at hi
      split at hi <;> simp at hi
    | group_id g =>
      simp [raft_group0.peer_exchange, h] at hi
      simp [← hi]

/-- C2 (as stated, refuted): on the joined follower, whose engine knows node 2 as the
leader, the group-0-info answer does not carry the leader's address. -/
theorem peer_exchange_not_leader_address :
    joined_follower._group0 = .group_id ⟨5⟩ ∧
    (joined_follower.peer_exchange toy []).2 ≠
      .group0_info ⟨⟨5⟩, toy.get_server_address joined_follower._raft_gr.address_map
        joined_follower._raft_gr.group0.current_leader⟩ := by
  decide

/-- C2 (amended): in joined(g), the group-0-info answer of `peer_exchange` carries g
together with the answering node's own address, that is the address the address map
holds for the identity of the local group-0 server, whoever the leader is. -/
theorem peer_exchange_own_address {D AM : Type} (C : collaborators D AM)
    (peers : peer_list) (s : raft_group0 D AM) (g : group_id)
    (h : s._group0 = .group_id g) :
    (s.peer_exchange C peers).2 = .group0_info
      ⟨g, C.get_server_address s._raft_gr.address_map s._raft_gr.group0.id⟩ := by
  simp [raft_group0.peer_exchange, h]

/-- C2 (amended), on the joined follower: the answer carries the follower's own address
(identity 1 at address 7), not the leader's. -/
theorem peer_exchange_own_address_witness :
    joined_follower._group0 = .group_id ⟨5⟩ ∧
    (joined_follower.peer_exchange toy []).2 = .group0_info ⟨⟨5⟩, ⟨⟨1⟩, [7]⟩⟩ :=
  ⟨rfl, peer_exchange_own_address toy [] joined_follower ⟨5⟩ rfl⟩

/-! ## Joining with a persisted identifier -/

/-- A non-null group identifier converts to `true`. -/
theorem group_id_to_bool_of_ne {g : group_id} (h : g ≠ ⟨0⟩) : g.to_bool = true := by
  cases g with
  | mk id =>
    have : id ≠ 0 := fun h0 => h (by rw [h0])
    simp [group_id.to_bool, this]

/-- A non-null server identifier converts to `true`. -/
theorem server_id_to_bool_of_ne {i : server_id} (h : i ≠ ⟨0⟩) : i.to_bool = true := by
  cases i with
  | mk id =>
    have : id ≠ 0 := fun h0 => h (by rw [h0])
    simp [server_id.to_bool, this]

/-- With the local identity persisted, `start_server_for_group0` builds and starts the
server and sets the phase; it touches neither storage nor the clock. -/
theorem start_server_for_group0_ok {D AM : Type} (C : collaborators D AM)
    (s : raft_group0 D AM) (g : group_id) (hnn : g ≠ ⟨0⟩)
    (hid : s.sys_ks.raft_server_id ≠ ⟨0⟩) :
    (s.start_server_for_group0 C g).2 = .value () ∧
    (s.start_server_for_group0 C g).1._group0 = .group_id g ∧
    (s.start_server_for_group0 C g).1.sys_ks = s.sys_ks ∧
    (s.start_server_for_group0 C g).1.clock = s.clock ∧
    (s.start_server_for_group0 C g).1.trace = s.trace ++
      [.get_raft_server_id,
       .address_map_set ⟨s.sys_ks.raft_server_id,
         C.inet_addr_to_raft_addr s._gossiper.get_broadcast_address⟩,
       .create_server g ⟨s.sys_ks.raft_server_id,
         C.inet_addr_to_raft_addr s._gossiper.get_broadcast_address⟩,
       .start_server_for_group g] := by
  have hb := server_id_to_bool_of_ne hid
  simp [raft_group0.start_server_for_group0, hnn, raft_group0.load_my_addr, hb,
    raft_group0.create_server_for_group0, raft_group0.start_server_for_group,
    raft_group0.log]

/-- C3: when a non-null group identifier g is persisted (the phase is not joined and the
local identity is persisted), `join_group0` performs zero discovery. It succeeds, its
actions are exactly: read the identifier, read the identity, register the own address,
build the server for g, start it. None of them constructs a discovery, is a network call
or a modify-config request. The phase ends as joined(g), storage is unchanged. -/
theorem join_group0_persisted_no_discovery {D AM : Type} (C : collaborators D AM)
    (env : environment) (fuel : Nat) (s : raft_group0 D AM) (g : group_id)
    (hg : s.sys_ks.raft_group0_id = g) (hnn : g ≠ ⟨0⟩)
    (hnj : s.joined_group0 = false) (hid : s.sys_ks.raft_server_id ≠ ⟨0⟩) :
    (s.join_group0 C env fuel).2 = .value () ∧
    (s.join_group0 C env fuel).1._group0 = .group_id g ∧
    (s.join_group0 C env fuel).1.sys_ks = s.sys_ks ∧
    (s.join_group0 C env fuel).1.sys_ks.raft_group0_id = g ∧
    (s.join_group0 C env fuel).1.trace = s.trace ++
      [.get_raft_group0_id,
       .get_raft_server_id,
       .address_map_set ⟨s.sys_ks.raft_server_id,
         C.inet_addr_to_raft_addr s._gossiper.get_broadcast_address⟩,
       .create_server g ⟨s.sys_ks.raft_server_id,
         C.inet_addr_to_raft_addr s._gossiper.get_broadcast_address⟩,
       .start_server_for_group g] ∧
    (∀ e ∈ ((s.join_group0 C env fuel).1.trace.drop s.trace.length),
      e.is_discovery = false ∧ e.is_network_call = false ∧ e.is_modify_config = false) := by
  have hb := group_id_to_bool_of_ne hnn
  have hjoin : s.join_group0 C env fuel =
      (s.log .get_raft_group0_id).start_server_for_group0 C g := by
    simp [raft_group0.join_group0, hnj, hg, hb]
  have h := start_server_for_group0_ok C (s.log .get_raft_group0_id) g hnn
    (by simpa [raft_group0.log] using hid)
  rw [hjoin]
  obtain ⟨h1, h2, h3, h4, h5⟩ := h
  have htrace : ((s.log .get_raft_group0_id).start_server_for_group0 C g).1.trace = s.trace ++
      [.get_raft_group0_id,
       .get_raft_server_id,
       .address_map_set ⟨s.sys_ks.raft_server_id,
         C.inet_addr_to_raft_addr s._gossiper.get_broadcast_address⟩,
       .create_server g ⟨s.sys_ks.raft_server_id,
         C.inet_addr_to_raft_addr s._gossiper.get_broadcast_address⟩,
       .start_server_for_group g] := by
    rw [h5]; simp [raft_group0.log]
  refine ⟨h1, h2, by rw [h3]; rfl, by rw [h3]; exact hg, htrace, ?_⟩
  rw [htrace]
  intro e he
  simp at he
  rcases he with rfl | rfl | rfl | rfl | rfl <;> simp [event.is_discovery,
    event.is_network_call, event.is_modify_config]

/-- C3, on a node restarted with group 5 and identity 1 persisted. -/
theorem join_group0_persisted_no_discovery_witness :
    (({ joined_follower with _group0 := .monostate }).join_group0 toy quiet_env 0).2
      = .value () ∧
    (({ joined_follower with _group0 := .monostate }).join_group0 toy quiet_env 0).1._group0
      = .group_id ⟨5⟩ :=
  have h := join_group0_persisted_no_discovery toy quiet_env 0
    { joined_follower with _group0 := .monostate } ⟨5⟩ rfl (by decide) rfl (by decide)
  ⟨h.1, h.2.1⟩

/-! ## Discovery of group 0 -/

/-- The run of a persistent discovery only appends to the trace, and what it appends are
discovery actions and sleeps. -/
theorem run_trace {D AM : Type} (C : collaborators D AM) (env : environment) :
    ∀ (fuel : Nat) (my_addr : server_address) (st : run_state D),
      ∃ evs, (persistent_discovery.run C env fuel my_addr st).1.trace = st.trace ++ evs ∧
        ∀ e ∈ evs, e.is_discovery = true ∨ e = .sleep := by
  intro fuel
  induction fuel with
  | zero =>
    intro my_addr st
    exact ⟨[], by simp [persistent_discovery.run], by simp⟩
  | succ n ih =>
    intro my_addr st
    simp only [persistent_discovery.run]
    split
    · exact ⟨[.store_discovered_peers
          (C.discovery_peers (persistent_discovery.tick C st.self st.qp).1._discovery)], rfl, by simp [event.is_discovery]⟩
    · split
      · exact ⟨[.store_discovered_peers
          (C.discovery_peers (persistent_discovery.tick C st.self st.qp).1._discovery), .sleep], by simp, by simp [event.is_discovery]⟩
      · obtain ⟨evs, h1, h2⟩ := ih my_addr
          { self := (persistent_discovery.tick C st.self st.qp).1,
            qp := (persistent_discovery.tick C st.self st.qp).2.1,
            clock := st.clock + 1,
            trace := st.trace ++ [.store_discovered_peers
              (C.discovery_peers (persistent_discovery.tick C st.self st.qp).1._discovery)]
              ++ [.sleep] }
        refine ⟨[.store_discovered_peers
          (C.discovery_peers (persistent_discovery.tick C st.self st.qp).1._discovery), .sleep] ++ evs, ?_, ?_⟩
        · rw [h1]; simp
        · intro e he
          simp at he
          rcases he with rfl | rfl | he
          · simp [event.is_discovery]
          · simp
          · exact h2 e he
    · rename_i requests _
      have hsend : ∀ e ∈ (.store_discovered_peers
          (C.discovery_peers (persistent_discovery.tick C st.self st.qp).1._discovery) ::
          requests.map (fun req =>
            event.send_group0_peer_exchange (C.raft_addr_to_inet_addr req.1) req.2)),
          e.is_discovery = true ∨ e = .sleep := by
        intro e he
        simp at he
        rcases he with rfl | ⟨a, b, _, rfl⟩
        · simp [event.is_discovery]
        · simp [event.is_discovery]
      split
      · exact ⟨_, by simp, hsend⟩
      · obtain ⟨evs, h1, h2⟩ := ih my_addr
          { self := (run_round C env st.clock
              (persistent_discovery.tick C st.self st.qp).1 requests).1,
            qp := (persistent_discovery.tick C st.self st.qp).2.1,
            clock := st.clock + 1,
            trace := st.trace ++ [.store_discovered_peers
              (C.discovery_peers (persistent_discovery.tick C st.self st.qp).1._discovery)]
              ++ requests.map (fun req =>
                event.send_group0_peer_exchange (C.raft_addr_to_inet_addr req.1) req.2) }
        refine ⟨(.store_discovered_peers
          (C.discovery_peers (persistent_discovery.tick C st.self st.qp).1._discovery) :: requests.map (fun req =>
            event.send_group0_peer_exchange (C.raft_addr_to_inet_addr req.1) req.2)) ++ evs,
          ?_, ?_⟩
        · rw [h1]; simp
        · intro e he
          rcases List.mem_append.1 he with he | he
          · exact hsend e he
          · exact h2 e he
      · exact ⟨_, by simp, hsend⟩
      · exact ⟨_, by simp, hsend⟩

/-- Entering a discovery puts a fresh, open persistent discovery into `_group0`. -/
theorem discover_group0_enter_phase {D AM : Type} (C : collaborators D AM)
    (my_addr : server_address) (s : raft_group0 D AM) :
    ∃ d, (s.discover_group0_enter C my_addr)._group0 = .persistent_discovery d ∧
      d._gate_closed = false :=
  ⟨_, rfl, rfl⟩

/-- Driving the run keeps `_group0` in the discovering phase. -/
theorem discover_group0_run_phase {D AM : Type} (C : collaborators D AM)
    (env : environment) (fuel : Nat) (my_addr : server_address) (s : raft_group0 D AM)
    (d : persistent_discovery D) (h : s._group0 = .persistent_discovery d) :
    ∃ d1, (s.discover_group0_run C env fuel my_addr).1._group0 = .persistent_discovery d1 := by
  simp only [raft_group0.discover_group0_run, h]
  split
  · exact ⟨d, h⟩
  · exact ⟨_, rfl⟩

/-- The three ways a call of `discover_group0` ends: the shutdown gate is closed, the run
is still going when the fuel ends, or the run returned or threw. -/
theorem discover_group0_eq {D AM : Type} (C : collaborators D AM)
    (env : environment) (fuel : Nat) (my_addr : server_address) (s : raft_group0 D AM) :
    s.discover_group0 C env fuel my_addr =
      if s._shutdown_gate_closed then
        ({ s with
            _group0 := .monostate,
            trace := s.trace ++ [.load_discovered_peers, .discovery_made
              (s._gossiper.get_seeds.map (fun seed => ⟨⟨0⟩, C.inet_addr_to_raft_addr seed⟩)),
              .discovery_stopped] },
          .thrown .gate_closed)
      else
        match (persistent_discovery.run C env fuel my_addr
          { self := persistent_discovery.make C my_addr
              (s._gossiper.get_seeds.map (fun seed => ⟨⟨0⟩, C.inet_addr_to_raft_addr seed⟩))
              s.sys_ks.discovery,
            qp := s.sys_ks.discovery, clock := s.clock,
            trace := s.trace ++ [.load_discovered_peers, .discovery_made
              (s._gossiper.get_seeds.map
                (fun seed => ⟨⟨0⟩, C.inet_addr_to_raft_addr seed⟩))] }) with
        | (st, .out_of_fuel) =>
          ({ s with
              _group0 := .persistent_discovery st.self,
              sys_ks := { s.sys_ks with discovery := st.qp },
              clock := st.clock, trace := st.trace },
            .out_of_fuel)
        | (st, res) =>
          ({ s with
              _group0 := .monostate,
              sys_ks := { s.sys_ks with discovery := st.qp },
              clock := st.clock, trace := st.trace ++ [.discovery_stopped] },
            res) := by
  by_cases hgate : s._shutdown_gate_closed = true
  · simp [raft_group0.discover_group0, raft_group0.discover_group0_run,
      raft_group0.discover_group0_enter, hgate,
      raft_group0.discover_group0_finally, raft_group0.discover_group0_stop]
  · simp only [raft_group0.discover_group0, raft_group0.discover_group0_run,
      raft_group0.discover_group0_enter, hgate]
    simp only [Bool.false_eq_true, if_false]
    generalize persistent_discovery.run C env fuel my_addr _ = r
    obtain ⟨st, res⟩ := r
    cases res <;> simp [raft_group0.discover_group0_finally, raft_group0.discover_group0_stop]

/-- What a call of `discover_group0` leaves untouched and what it appends to the trace:
registry, gossiper, shutdown gate and the scalars of local storage stay; the trace grows
by discovery actions and sleeps; the phase after the call is never joined, and it is
not-started whenever the call returned or threw. -/
theorem discover_group0_frame {D AM : Type} (C : collaborators D AM)
    (env : environment) (fuel : Nat) (my_addr : server_address) (s : raft_group0 D AM) :
    (∃ evs, (s.discover_group0 C env fuel my_addr).1.trace = s.trace ++ evs ∧
      ∀ e ∈ evs, e.is_discovery = true ∨ e = .sleep) ∧
    (s.discover_group0 C env fuel my_addr).1._raft_gr = s._raft_gr ∧
    (s.discover_group0 C env fuel my_addr).1._gossiper = s._gossiper ∧
    (s.discover_group0 C env fuel my_addr).1._shutdown_gate_closed = s._shutdown_gate_closed ∧
    (s.discover_group0 C env fuel my_addr).1.sys_ks.raft_server_id = s.sys_ks.raft_server_id ∧
    (s.discover_group0 C env fuel my_addr).1.sys_ks.raft_group0_id = s.sys_ks.raft_group0_id ∧
    (s.discover_group0 C env fuel my_addr).1.sys_ks.raft_configuration
      = s.sys_ks.raft_configuration ∧
    (s.discover_group0 C env fuel my_addr).1.joined_group0 = false ∧
    ((s.discover_group0 C env fuel my_addr).2 ≠ .out_of_fuel →
      (s.discover_group0 C env fuel my_addr).1._group0 = .monostate) := by
  obtain ⟨evs, h1, h2⟩ := run_trace C env fuel my_addr
    { self := persistent_discovery.make C my_addr
        (s._gossiper.get_seeds.map (fun seed => ⟨⟨0⟩, C.inet_addr_to_raft_addr seed⟩))
        s.sys_ks.discovery,
      qp := s.sys_ks.discovery, clock := s.clock,
      trace := s.trace ++ [.load_discovered_peers, .discovery_made
        (s._gossiper.get_seeds.map (fun seed => ⟨⟨0⟩, C.inet_addr_to_raft_addr seed⟩))] }
  have hev : ∀ (l : List event), (∀ e ∈ l, e.is_discovery = true ∨ e = .sleep) →
      ∀ e ∈ event.load_discovered_peers :: event.discovery_made
        (s._gossiper.get_seeds.map (fun seed => ⟨⟨0⟩, C.inet_addr_to_raft_addr seed⟩)) :: l,
        e.is_discovery = true ∨ e = .sleep := by
    intro l hl e he
    simp at he
    rcases he with rfl | rfl | he
    · simp [event.is_discovery]
    · simp [event.is_discovery]
    · exact hl e he
  generalize hres : s.discover_group0 C env fuel my_addr = res
  rw [discover_group0_eq] at hres
  split at hres
  · subst hres
    refine ⟨⟨_, by simp, hev [.discovery_stopped] ?_⟩, rfl, rfl, rfl, rfl, rfl, rfl, rfl,
      fun _ => rfl⟩
    intro e he
    simp at he
    subst he
    simp [event.is_discovery]
  · split at hres
    · rename_i hrun
      subst hres
      rw [hrun] at h1
      refine ⟨⟨_, by rw [h1]; simp, hev evs h2⟩, rfl, rfl, rfl, rfl, rfl, rfl, rfl,
        fun hne => absurd rfl hne⟩
    · rename_i hrun
      subst hres
      rw [hrun] at h1
      refine ⟨⟨_, by rw [h1]; simp, hev (evs ++ [.discovery_stopped]) ?_⟩, rfl, rfl, rfl,
        rfl, rfl, rfl, rfl, fun _ => rfl⟩
      intro e he
      rcases List.mem_append.1 he with he | he
      · exact h2 e he
      · simp at he
        subst he
        simp [event.is_discovery]

/-- C7: for every call of `discover_group0` started in the not-started phase: while the
call is in progress (after the instance is constructed, and while the run is driven) the
phase is discovering; whenever the run returns a descriptor or throws, the persistent
discovery is stopped (its gate is closed), the phase is not-started again, and the
descriptor or the error of the run is what `discover_group0` returns or re-throws. -/
theorem discover_group0_restores_not_started {D AM : Type} (C : collaborators D AM)
    (env : environment) (fuel : Nat) (my_addr : server_address) (s : raft_group0 D AM)
    (h : s._group0 = .monostate) :
    (∃ d, (s.discover_group0_enter C my_addr)._group0 = .persistent_discovery d) ∧
    (∃ d, ((s.discover_group0_enter C my_addr).discover_group0_run C env fuel my_addr).1._group0
      = .persistent_discovery d) ∧
    (((s.discover_group0_enter C my_addr).discover_group0_run C env fuel my_addr).2
        ≠ .out_of_fuel →
      (s.discover_group0 C env fuel my_addr).2 =
        ((s.discover_group0_enter C my_addr).discover_group0_run C env fuel my_addr).2 ∧
      (s.discover_group0 C env fuel my_addr).1._group0 = s._group0 ∧
      (s.discover_group0 C env fuel my_addr).1._group0 = .monostate ∧
      (∃ d, (((s.discover_group0_enter C my_addr).discover_group0_run C env fuel
          my_addr).1.discover_group0_stop)._group0 = .persistent_discovery d ∧
        d._gate_closed = true) ∧
      (s.discover_group0 C env fuel my_addr).1.trace =
        ((s.discover_group0_enter C my_addr).discover_group0_run C env fuel my_addr).1.trace
          ++ [.discovery_stopped]) := by
  obtain ⟨d0, hd0, _⟩ := discover_group0_enter_phase C my_addr s
  obtain ⟨d1, hd1⟩ := discover_group0_run_phase C env fuel my_addr
    (s.discover_group0_enter C my_addr) d0 hd0
  refine ⟨⟨d0, hd0⟩, ⟨d1, hd1⟩, ?_⟩
  intro hne
  have hfin : s.discover_group0 C env fuel my_addr =
      (((s.discover_group0_enter C my_addr).discover_group0_run C env fuel
          my_addr).1.discover_group0_finally,
        ((s.discover_group0_enter C my_addr).discover_group0_run C env fuel my_addr).2) := by
    generalize hr : (s.discover_group0_enter C my_addr).discover_group0_run C env fuel
      my_addr = r at hne
    obtain ⟨s2, res⟩ := r
    cases res with
    | value a => simp [raft_group0.discover_group0, hr]
    | thrown e => simp [raft_group0.discover_group0, hr]
    | out_of_fuel => exact absurd rfl hne
  rw [hfin, h]
  refine ⟨rfl, rfl, rfl, ⟨d1.stop, ?_, rfl⟩, ?_⟩
  · simp [raft_group0.discover_group0_stop, hd1]
  · simp [raft_group0.discover_group0_finally, raft_group0.discover_group0_stop, hd1]

/-- C7, on a fresh node: alone among its seeds the run returns a descriptor, and with a
second seed whose peer exchange fails unexpectedly the run throws; in both cases the
phase is not-started afterwards and the outcome is passed on. -/
theorem discover_group0_restores_not_started_witness :
    (((fresh_node 7 [7]).discover_group0 toy quiet_env 1 ⟨⟨1⟩, [7]⟩).2
        = .value ⟨⟨1000⟩, ⟨⟨1⟩, [7]⟩⟩ ∧
      ((fresh_node 7 [7]).discover_group0 toy quiet_env 1 ⟨⟨1⟩, [7]⟩).1._group0
        = .monostate) ∧
    (((fresh_node 7 [7, 8]).discover_group0 toy failing_env 1 ⟨⟨1⟩, [7]⟩).2
        = .thrown (.other 3) ∧
      ((fresh_node 7 [7, 8]).discover_group0 toy failing_env 1 ⟨⟨1⟩, [7]⟩).1._group0
        = .monostate) :=
  have h1 := (discover_group0_restores_not_started toy quiet_env 1 ⟨⟨1⟩, [7]⟩
    (fresh_node 7 [7]) rfl).2.2 (by decide)
  have h2 := (discover_group0_restores_not_started toy failing_env 1 ⟨⟨1⟩, [7]⟩
    (fresh_node 7 [7, 8]) rfl).2.2 (by decide)
  ⟨⟨h1.1.trans (by decide), h1.2.2.1⟩, ⟨h2.1.trans (by decide), h2.2.2.1⟩⟩

/-! ## The join workflow through discovery -/

/-- The completion of an RPC advances the clock and changes nothing but the configuration
of the engine. -/
theorem rpc_completed_frame {D AM : Type} (env : environment) (gid : group_id)
    (s : raft_group0 D AM) :
    (s.rpc_completed env gid).clock = s.clock + 1 ∧
    (s.rpc_completed env gid).trace = s.trace ∧
    (s.rpc_completed env gid).sys_ks = s.sys_ks ∧
    (s.rpc_completed env gid)._group0 = s._group0 ∧
    (s.rpc_completed env gid)._shutdown_gate_closed = s._shutdown_gate_closed ∧
    (s.rpc_completed env gid)._gossiper = s._gossiper := by
  simp only [raft_group0.rpc_completed]
  split <;> exact ⟨rfl, rfl, rfl, rfl, rfl, rfl⟩

/-- When the membership step leaves the loop by `break`, it returns the identifier it was
given, and either the check passed on the server or the modify-config request just sent
was answered successfully. -/
theorem join_group0_membership_break {D AM : Type} (C : collaborators D AM)
    (env : environment) (server group0_id : group_id)
    (my_addr : server_address) (g0_info : group0_info) (s s' : raft_group0 D AM)
    (g : group_id)
    (h : s.join_group0_membership C env server group0_id my_addr g0_info
      = .left s' (.value g)) :
    g = group0_id ∧
    ((s'._raft_gr.get_server server).configuration.contains my_addr.id = true ∨
      (env.modify_config_reply (s'.clock - 1) = .reply () ∧
        s'.trace.getLast? = some (.send_group0_modify_config
          (C.raft_addr_to_inet_addr g0_info.addr) g [⟨my_addr, false⟩] []))) := by
  simp only [raft_group0.join_group0_membership] at h
  by_cases hc : (s._raft_gr.get_server server).configuration.contains my_addr.id = true
  · simp only [hc, if_true, join_step.left.injEq, result.value.injEq] at h
    obtain ⟨h1, h2⟩ := h
    subst h1 h2
    exact ⟨rfl, Or.inl hc⟩
  · simp only [hc] at h
    by_cases hgate : s._shutdown_gate_closed = true
    · simp [hgate] at h
    · simp only [hgate] at h
      cases hreply : env.modify_config_reply s.clock with
      | reply a =>
        simp only [hreply, Bool.false_eq_true, if_false, join_step.left.injEq,
          result.value.injEq] at h
        obtain ⟨h1, h2⟩ := h
        subst h1 h2
        obtain ⟨hclock, htrace, -⟩ := rpc_completed_frame env server
          (s.log (.send_group0_modify_config (C.raft_addr_to_inet_addr g0_info.addr)
            group0_id [⟨my_addr, false⟩] []))
        refine ⟨rfl, Or.inr ⟨?_, ?_⟩⟩
        · rw [hclock]
          simpa [raft_group0.log] using hreply
        · rw [htrace]
          simp [raft_group0.log]
      | failure e =>
        simp only [hreply, Bool.false_eq_true, if_false] at h
        by_cases hr : e.is_runtime_error = true
        · simp only [hr, if_true] at h
          split at h <;> simp at h
        · simp [hr] at h

/-- When the membership step goes round again, it hands on the server and the identifier
it was given. -/
theorem join_group0_membership_again {D AM : Type} (C : collaborators D AM)
    (env : environment) (server group0_id : group_id)
    (my_addr : server_address) (g0_info : group0_info) (s s' : raft_group0 D AM)
    (srv gid : group_id)
    (h : s.join_group0_membership C env server group0_id my_addr g0_info
      = .again s' srv gid) :
    srv = server ∧ gid = group0_id := by
  simp only [raft_group0.join_group0_membership] at h
  by_cases hc : (s._raft_gr.get_server server).configuration.contains my_addr.id = true
  · simp [hc] at h
  · simp only [hc] at h
    by_cases hgate : s._shutdown_gate_closed = true
    · simp [hgate] at h
    · simp only [hgate] at h
      cases hreply : env.modify_config_reply s.clock with
      | reply a => simp [hreply] at h
      | failure e =>
        simp only [hreply, Bool.false_eq_true, if_false] at h
        by_cases hr : e.is_runtime_error = true
        · simp only [hr, if_true] at h
          split at h
          · simp at h
          · simp only [join_step.again.injEq] at h
            exact ⟨h.2.1.symm, h.2.2.symm⟩
        · simp [hr] at h

/-- An iteration that gets past the two-clusters test is the membership step on the
server of the identifier just discovered, after the first iteration has created it. -/
theorem join_group0_iteration_eq {D AM : Type} (C : collaborators D AM)
    (env : environment) (server : Option group_id) (group0_id : group_id)
    (my_addr : server_address) (g0_info : group0_info) (s : raft_group0 D AM)
    (hsrv : ∀ h, server = some h → h = group0_id)
    (hsame : (server.isSome && group0_id != g0_info.group0_id) = false) :
    (server.isSome = true → g0_info.group0_id = group0_id) ∧
    s.join_group0_iteration C env server group0_id my_addr g0_info =
      raft_group0.join_group0_membership C env g0_info.group0_id g0_info.group0_id
        my_addr g0_info
        (if server.isNone then (s.log (.found_group0 g0_info)).join_group0_first C g0_info my_addr
         else s.log (.found_group0 g0_info)) := by
  cases server with
  | none =>
    refine ⟨by simp, ?_⟩
    simp [raft_group0.join_group0_iteration]
  | some x =>
    have hx := hsrv x rfl
    subst hx
    have hxe : x = g0_info.group0_id := by simpa using hsame
    subst hxe
    refine ⟨fun _ => rfl, ?_⟩
    simp [raft_group0.join_group0_iteration]

/-! ## Two clusters -/

/-- The identifiers found in two traces put end to end. -/
theorem found_group0_ids_append (a b : List event) :
    found_group0_ids (a ++ b) = found_group0_ids a ++ found_group0_ids b := by
  simp [found_group0_ids, List.filterMap_append]

/-- Discovery actions and sleeps record no found identifier and no write of the
identifier. -/
theorem found_group0_ids_of_discovery (evs : List event)
    (h : ∀ e ∈ evs, e.is_discovery = true ∨ e = .sleep) :
    found_group0_ids evs = [] ∧ ∀ e ∈ evs, ∀ x, e ≠ .set_raft_group0_id x := by
  constructor
  · simp only [found_group0_ids, List.filterMap_eq_nil_iff]
    intro e he
    rcases h e he with h1 | h1
    · cases e <;> simp [event.is_discovery] at h1 ⊢
    · subst h1; rfl
  · intro e he x hx
    subst hx
    rcases h _ he with h1 | h1
    · simp [event.is_discovery] at h1
    · simp at h1

/-- The first-discovery block only appends server construction to the trace and leaves
the phase and the persisted identifier alone. -/
theorem join_group0_first_frame {D AM : Type} (C : collaborators D AM)
    (g0_info : group0_info) (my_addr : server_address) (s : raft_group0 D AM) :
    (∃ evs, (s.join_group0_first C g0_info my_addr).trace = s.trace ++ evs ∧
      found_group0_ids evs = [] ∧ ∀ e ∈ evs, ∀ x, e ≠ .set_raft_group0_id x) ∧
    (s.join_group0_first C g0_info my_addr).sys_ks.raft_group0_id = s.sys_ks.raft_group0_id ∧
    (s.join_group0_first C g0_info my_addr)._group0 = s._group0 := by
  refine ⟨⟨[.address_map_set my_addr, .create_server g0_info.group0_id my_addr,
      .bootstrap g0_info.group0_id
        (if g0_info.addr.id = my_addr.id then { current := [⟨my_addr, true⟩] }
          else { current := [] }),
      .start_server_for_group g0_info.group0_id], ?_, rfl, ?_⟩, rfl, rfl⟩
  · simp [raft_group0.join_group0_first, raft_group0.create_server_for_group0,
      raft_group0.bootstrap, raft_group0.start_server_for_group]
  · intro e he x hx
    subst hx
    simp at he

/-- The membership step only appends a modify-config request and a sleep to the trace and
leaves the phase and local storage alone. -/
theorem join_group0_membership_frame {D AM : Type} (C : collaborators D AM)
    (env : environment) (server group0_id : group_id)
    (my_addr : server_address) (g0_info : group0_info) (s : raft_group0 D AM) :
    (∃ evs, (s.join_group0_membership C env server group0_id my_addr g0_info).state.trace
        = s.trace ++ evs ∧
      found_group0_ids evs = [] ∧ ∀ e ∈ evs, ∀ x, e ≠ .set_raft_group0_id x) ∧
    (s.join_group0_membership C env server group0_id my_addr g0_info).state.sys_ks
      = s.sys_ks ∧
    (s.join_group0_membership C env server group0_id my_addr g0_info).state._group0
      = s._group0 := by
  obtain ⟨-, htrace, hks, hg, -⟩ := rpc_completed_frame env server
    (s.log (.send_group0_modify_config (C.raft_addr_to_inet_addr g0_info.addr)
      group0_id [⟨my_addr, false⟩] []))
  have hsend : ∀ e ∈ [event.send_group0_modify_config (C.raft_addr_to_inet_addr g0_info.addr)
      group0_id [⟨my_addr, false⟩] []], ∀ x, e ≠ .set_raft_group0_id x := by
    intro e he x hx
    subst hx
    simp at he
  have hsend2 : ∀ e ∈ [event.send_group0_modify_config (C.raft_addr_to_inet_addr g0_info.addr)
      group0_id [⟨my_addr, false⟩] [], .sleep], ∀ x, e ≠ .set_raft_group0_id x := by
    intro e he x hx
    subst hx
    simp at he
  simp only [raft_group0.join_group0_membership]
  split
  · exact ⟨⟨[], by simp [join_step.state], rfl, by simp⟩, rfl, rfl⟩
  · split
    · exact ⟨⟨[], by simp [join_step.state], rfl, by simp⟩, rfl, rfl⟩
    · split
      · refine ⟨⟨_, ?_, ?_, hsend⟩, hks, hg⟩
        · simp only [join_step.state]; rw [htrace]; rfl
        · rfl
      · split
        · split
          · refine ⟨⟨_, ?_, ?_, hsend2⟩, hks, hg⟩
            · simp only [join_step.state]; rw [htrace]; simp [raft_group0.log]
            · rfl
          · refine ⟨⟨_, ?_, ?_, hsend2⟩, hks, hg⟩
            · simp only [join_step.state]; rw [htrace]; simp [raft_group0.log]
            · rfl
        · refine ⟨⟨_, ?_, ?_, hsend⟩, hks, hg⟩
          · simp only [join_step.state]; rw [htrace]; rfl
          · rfl

/-- An iteration records the identifier just found, then only server construction, a
modify-config request and a sleep; it leaves the phase and the persisted identifier
alone. -/
theorem join_group0_iteration_frame {D AM : Type} (C : collaborators D AM)
    (env : environment) (server : Option group_id) (group0_id : group_id)
    (my_addr : server_address) (g0_info : group0_info) (s : raft_group0 D AM) :
    (∃ evs, (s.join_group0_iteration C env server group0_id my_addr g0_info).state.trace
        = s.trace ++ .found_group0 g0_info :: evs ∧
      found_group0_ids evs = [] ∧ ∀ e ∈ evs, ∀ x, e ≠ .set_raft_group0_id x) ∧
    (s.join_group0_iteration C env server group0_id my_addr g0_info).state.sys_ks.raft_group0_id
      = s.sys_ks.raft_group0_id ∧
    (s.join_group0_iteration C env server group0_id my_addr g0_info).state._group0
      = s._group0 := by
  simp only [raft_group0.join_group0_iteration]
  split
  · exact ⟨⟨[], by simp [join_step.state, raft_group0.log], rfl, by simp⟩, rfl, rfl⟩
  · split
    · obtain ⟨⟨e1, ht1, hf1, hs1⟩, hk1, hg1⟩ := join_group0_first_frame C g0_info my_addr
        (s.log (.found_group0 g0_info))
      obtain ⟨⟨e2, ht2, hf2, hs2⟩, hk2, hg2⟩ := join_group0_membership_frame C env
        g0_info.group0_id g0_info.group0_id my_addr g0_info
        ((s.log (.found_group0 g0_info)).join_group0_first C g0_info my_addr)
      refine ⟨⟨e1 ++ e2, ?_, ?_, ?_⟩, ?_, ?_⟩
      · rw [ht2, ht1]; simp [raft_group0.log]
      · rw [found_group0_ids_append, hf1, hf2]; rfl
      · intro e he
        rcases List.mem_append.1 he with he | he
        · exact hs1 e he
        · exact hs2 e he
      · rw [hk2, hk1]; rfl
      · rw [hg2, hg1]; rfl
    · obtain ⟨⟨e2, ht2, hf2, hs2⟩, hk2, hg2⟩ := join_group0_membership_frame C env
        (by assumption) g0_info.group0_id my_addr g0_info (s.log (.found_group0 g0_info))
      refine ⟨⟨e2, ?_, hf2, hs2⟩, ?_, ?_⟩
      · rw [ht2]; simp [raft_group0.log]
      · rw [hk2]; rfl
      · rw [hg2]; rfl

/-- The phase query only reads `_group0`. -/
theorem joined_group0_congr {D AM : Type} (s s' : raft_group0 D AM)
    (h : s'._group0 = s._group0) : s'.joined_group0 = s.joined_group0 := by
  simp [raft_group0.joined_group0, h]

/-- The loop of `join_group0` never writes the group identifier and never sets the phase
to joined; once the first discovery has fixed the identifier, every later discovery
either returns the same identifier or makes the loop throw the two-clusters error. -/
theorem join_group0_loop_ids {D AM : Type} (C : collaborators D AM) (env : environment)
    (n : Nat) :
    ∀ (fuel : Nat) (server : Option group_id) (group0_id : group_id)
      (my_addr : server_address) (s : raft_group0 D AM),
      (∀ h, server = some h → h = group0_id) →
      ∃ evs,
        (raft_group0.join_group0_loop C env n fuel server group0_id my_addr s).1.trace
          = s.trace ++ evs ∧
        (raft_group0.join_group0_loop C env n fuel server group0_id my_addr
          s).1.sys_ks.raft_group0_id = s.sys_ks.raft_group0_id ∧
        (s.joined_group0 = false →
          (raft_group0.join_group0_loop C env n fuel server group0_id my_addr
            s).1.joined_group0 = false) ∧
        (∀ e ∈ evs, ∀ x, e ≠ .set_raft_group0_id x) ∧
        (server.isSome = true → same_cluster_or_thrown group0_id (found_group0_ids evs)
          (raft_group0.join_group0_loop C env n fuel server group0_id my_addr s).2) ∧
        (server = none → found_group0_ids evs = [] ∨
          ∃ g rest, found_group0_ids evs = g :: rest ∧ same_cluster_or_thrown g rest
            (raft_group0.join_group0_loop C env n fuel server group0_id my_addr s).2) := by
  intro fuel
  induction fuel with
  | zero =>
    intro server group0_id my_addr s _
    refine ⟨[], by simp [raft_group0.join_group0_loop], rfl, fun h => h, by simp,
      fun _ => Or.inl (by simp [found_group0_ids]), fun _ => Or.inl rfl⟩
  | succ k ih =>
    intro server group0_id my_addr s hsrv
    obtain ⟨⟨evd, htd, hqd⟩, -, -, -, -, hgd, -, hjd, -⟩ :=
      discover_group0_frame C env n my_addr s
    obtain ⟨hfd, hsd⟩ := found_group0_ids_of_discovery evd hqd
    simp only [raft_group0.join_group0_loop]
    generalize s.discover_group0 C env n my_addr = d at htd hgd hjd
    obtain ⟨s1, res⟩ := d
    simp only at htd hgd hjd
    cases res with
    | out_of_fuel =>
      exact ⟨evd, htd, hgd, fun _ => hjd, hsd, fun _ => Or.inl (by rw [hfd]; simp),
        fun _ => Or.inl hfd⟩
    | thrown e =>
      exact ⟨evd, htd, hgd, fun _ => hjd, hsd, fun _ => Or.inl (by rw [hfd]; simp),
        fun _ => Or.inl hfd⟩
    | value g0_info =>
      simp only
      obtain ⟨⟨evi, hti, hfi, hsi⟩, hki, hgi⟩ := join_group0_iteration_frame C env server
        group0_id my_addr g0_info s1
      have hji := joined_group0_congr s1 _ hgi
      have hfound : found_group0_ids (evd ++ .found_group0 g0_info :: evi)
          = [g0_info.group0_id] := by
        rw [found_group0_ids_append, hfd]
        have : found_group0_ids (.found_group0 g0_info :: evi)
            = g0_info.group0_id :: found_group0_ids evi := by
          simp [found_group0_ids]
        rw [this, hfi]; rfl
      have hset : ∀ e ∈ evd ++ .found_group0 g0_info :: evi, ∀ x,
          e ≠ .set_raft_group0_id x := by
        intro e he
        rcases List.mem_append.1 he with he | he
        · exact hsd e he
        · rcases List.mem_cons.1 he with he | he
          · subst he; intro x hx; simp at hx
          · exact hsi e he
      by_cases hsame : (server.isSome && group0_id != g0_info.group0_id) = true
      · have hit : s1.join_group0_iteration C env server group0_id my_addr g0_info =
            .left (s1.log (.found_group0 g0_info))
              (.thrown (.two_clusters group0_id g0_info.group0_id)) := by
          simp [raft_group0.join_group0_iteration, hsame]
        rw [hit] at hti hki hji
        rw [hit]
        simp only [join_step.state] at hti hki hji
        simp only [Bool.and_eq_true, bne_iff_ne, ne_eq] at hsame
        refine ⟨evd ++ .found_group0 g0_info :: evi, ?_, ?_, ?_, hset, ?_, ?_⟩
        · rw [hti, htd]; simp
        · rw [hki, hgd]
        · intro _; rw [hji]; exact hjd
        · intro _
          rw [hfound]
          refine Or.inr ⟨g0_info.group0_id, fun h => hsame.2 h.symm, ?_, rfl⟩
          intro x hx
          simp at hx
          exact Or.inr hx
        · intro hnone
          rw [hnone] at hsame
          simp at hsame
      · have hsame : (server.isSome && group0_id != g0_info.group0_id) = false := by
          simpa using hsame
        obtain ⟨hold, heq⟩ := join_group0_iteration_eq C env server group0_id my_addr
          g0_info s1 hsrv hsame
        generalize hit : s1.join_group0_iteration C env server group0_id my_addr g0_info
          = it at hti hki hji heq
        cases it with
        | left s2 r =>
          simp only [join_step.state] at hti hki hji
          simp only
          refine ⟨evd ++ .found_group0 g0_info :: evi, ?_, ?_, ?_, hset, ?_, ?_⟩
          · rw [hti, htd]; simp
          · rw [hki, hgd]
          · intro _; rw [hji]; exact hjd
          · intro hs
            rw [hfound]
            refine Or.inl ?_
            intro x hx
            simp at hx
            rw [hx]; exact hold hs
          · intro _
            rw [hfound]
            exact Or.inr ⟨_, [], rfl, Or.inl (by simp)⟩
        | again s2 srv gid =>
          simp only [join_step.state] at hti hki hji
          simp only
          obtain ⟨ha, hb⟩ := join_group0_membership_again C env _ _ _ _ _ _ _ _ heq.symm
          subst ha hb
          obtain ⟨evr, htr, hgr, hjr, hsr, hpr, -⟩ := ih (some g0_info.group0_id)
            g0_info.group0_id my_addr s2 (fun x hx => by simpa using hx.symm)
          have hp := hpr rfl
          have hfound2 : found_group0_ids ((evd ++ .found_group0 g0_info :: evi) ++ evr)
              = g0_info.group0_id :: found_group0_ids evr := by
            rw [found_group0_ids_append, hfound]; rfl
          refine ⟨(evd ++ .found_group0 g0_info :: evi) ++ evr, ?_, ?_, ?_, ?_, ?_, ?_⟩
          · rw [htr, hti, htd]; simp
          · rw [hgr, hki, hgd]
          · intro _
            exact hjr (by rw [hji]; exact hjd)
          · intro e he
            rcases List.mem_append.1 he with he | he
            · exact hset e he
            · exact hsr e he
          · intro hs
            rw [hfound2]
            have hg := hold hs
            rw [← hg]
            rcases hp with hp | ⟨g2, hne, hall, hres⟩
            · refine Or.inl ?_
              intro x hx
              rcases List.mem_cons.1 hx with hx | hx
              · exact hx
              · exact hp x hx
            · refine Or.inr ⟨g2, hne, ?_, hres⟩
              intro x hx
              rcases List.mem_cons.1 hx with hx | hx
              · exact Or.inl hx
              · exact hall x hx
          · intro _
            rw [hfound2]
            exact Or.inr ⟨_, _, rfl, hp⟩

/-- Loading or creating the local identity records no found identifier, and leaves the
phase and the persisted group identifier alone. -/
theorem load_or_create_my_addr_frame {D AM : Type} (C : collaborators D AM)
    (env : environment) (s : raft_group0 D AM) :
    (∃ evs, (s.load_or_create_my_addr C env).1.trace = s.trace ++ evs ∧
      found_group0_ids evs = [] ∧ ∀ e ∈ evs, ∀ x, e ≠ .set_raft_group0_id x) ∧
    (s.load_or_create_my_addr C env).1.sys_ks.raft_group0_id = s.sys_ks.raft_group0_id ∧
    (s.load_or_create_my_addr C env).1._group0 = s._group0 := by
  simp only [raft_group0.load_or_create_my_addr]
  split
  · refine ⟨⟨[.get_raft_server_id, .set_raft_server_id (env.create_random_id s.clock)],
      by simp [raft_group0.log], rfl, ?_⟩, rfl, rfl⟩
    intro e he x hx
    subst hx
    simp at he
  · refine ⟨⟨[.get_raft_server_id], by simp [raft_group0.log], rfl, ?_⟩, rfl, rfl⟩
    intro e he x hx
    subst hx
    simp at he

/-- Starting the server of a persisted identifier records no found identifier. -/
theorem start_server_for_group0_found {D AM : Type} (C : collaborators D AM)
    (g : group_id) (s : raft_group0 D AM) :
    ∃ evs, (s.start_server_for_group0 C g).1.trace = s.trace ++ evs ∧
      found_group0_ids evs = [] := by
  by_cases hg : g = ⟨0⟩
  · exact ⟨[], by simp [raft_group0.start_server_for_group0, hg], rfl⟩
  · by_cases hid : s.sys_ks.raft_server_id.to_bool = true
    · exact ⟨[.get_raft_server_id,
        .address_map_set ⟨s.sys_ks.raft_server_id,
          C.inet_addr_to_raft_addr s._gossiper.get_broadcast_address⟩,
        .create_server g ⟨s.sys_ks.raft_server_id,
          C.inet_addr_to_raft_addr s._gossiper.get_broadcast_address⟩,
        .start_server_for_group g],
        by simp [raft_group0.start_server_for_group0, hg, raft_group0.load_my_addr, hid,
          raft_group0.log, raft_group0.create_server_for_group0,
          raft_group0.start_server_for_group], rfl⟩
    · exact ⟨[.get_raft_server_id],
        by simp [raft_group0.start_server_for_group0, hg, raft_group0.load_my_addr, hid,
          raft_group0.log], rfl⟩

/-- C5: for every join attempt in which a discovery after the first returns a group
identifier g2 different from the identifier g fixed by the first discovery of that
attempt, `join_group0` fails with the explicit two-clusters error naming g and g2, and
the node remains unbootstrapped: the attempt writes no group identifier to local storage
(the persisted identifier is still null) and the phase is not joined. -/
theorem join_group0_two_clusters {D AM : Type} (C : collaborators D AM)
    (env : environment) (fuel : Nat) (s : raft_group0 D AM)
    (g : group_id) (rest : List group_id) (g2 : group_id)
    (hfound : found_group0_ids ((s.join_group0 C env fuel).1.trace.drop s.trace.length)
      = g :: rest)
    (hmem : g2 ∈ rest) (hne : g2 ≠ g) :
    (s.join_group0 C env fuel).2 = .thrown (.two_clusters g g2) ∧
    (s.join_group0 C env fuel).1.sys_ks.raft_group0_id = ⟨0⟩ ∧
    (s.join_group0 C env fuel).1.joined_group0 = false ∧
    (∀ e ∈ (s.join_group0 C env fuel).1.trace.drop s.trace.length,
      ∀ x, e ≠ .set_raft_group0_id x) := by
  by_cases hj : s.joined_group0 = true
  · simp [raft_group0.join_group0, hj, found_group0_ids] at hfound
  by_cases hb : s.sys_ks.raft_group0_id.to_bool = true
  · have hjoin : s.join_group0 C env fuel =
        (s.log .get_raft_group0_id).start_server_for_group0 C s.sys_ks.raft_group0_id := by
      simp [raft_group0.join_group0, hj, hb]
    obtain ⟨evs, h1, h2⟩ := start_server_for_group0_found C s.sys_ks.raft_group0_id
      (s.log .get_raft_group0_id)
    have hJ : (s.join_group0 C env fuel).1.trace
        = s.trace ++ (.get_raft_group0_id :: evs) := by
      rw [hjoin, h1]; simp [raft_group0.log]
    have hnil : found_group0_ids (.get_raft_group0_id :: evs) = [] := by
      have : found_group0_ids [event.get_raft_group0_id] = [] := rfl
      rw [← List.singleton_append, found_group0_ids_append, this, h2]; rfl
    rw [hJ, List.drop_left, hnil] at hfound
    simp at hfound
  · have hnull : s.sys_ks.raft_group0_id = ⟨0⟩ := by
      cases hg : s.sys_ks.raft_group0_id with
      | mk id =>
        rw [hg] at hb
        simp [group_id.to_bool] at hb
        rw [hb]
    have hjoin : s.join_group0 C env fuel =
        match raft_group0.join_group0_loop C env fuel fuel none s.sys_ks.raft_group0_id
          ((s.log .get_raft_group0_id).load_or_create_my_addr C env).2
          ((s.log .get_raft_group0_id).load_or_create_my_addr C env).1 with
        | (s2, .value group0_id) => (s2.join_group0_persist group0_id, .value ())
        | (s2, .thrown e) => (s2, .thrown e)
        | (s2, .out_of_fuel) => (s2, .out_of_fuel) := by
      simp [raft_group0.join_group0, hj, hb]
    obtain ⟨⟨ev0, ht0, hf0, hs0⟩, hk0, hg0⟩ := load_or_create_my_addr_frame C env
      (s.log .get_raft_group0_id)
    have hj0 : ((s.log .get_raft_group0_id).load_or_create_my_addr C env).1.joined_group0
        = false := by
      rw [joined_group0_congr _ _ hg0]
      simpa [raft_group0.joined_group0, raft_group0.log] using hj
    obtain ⟨evl, htl, hkl, hjl, hsl, -, hpl⟩ := join_group0_loop_ids C env fuel fuel none
      s.sys_ks.raft_group0_id ((s.log .get_raft_group0_id).load_or_create_my_addr C env).2
      ((s.log .get_raft_group0_id).load_or_create_my_addr C env).1
      (fun x hx => by simp at hx)
    have hjl := hjl hj0
    have hpl := hpl rfl
    rw [hjoin] at hfound ⊢
    generalize raft_group0.join_group0_loop C env fuel fuel none s.sys_ks.raft_group0_id
          ((s.log .get_raft_group0_id).load_or_create_my_addr C env).2
          ((s.log .get_raft_group0_id).load_or_create_my_addr C env).1 = l
      at hfound htl hkl hjl hpl ⊢
    obtain ⟨s2, res⟩ := l
    simp only at htl hkl hjl hpl
    have htrace : s2.trace = s.trace ++ (.get_raft_group0_id :: ev0 ++ evl) := by
      rw [htl, ht0]; simp [raft_group0.log]
    have hids : found_group0_ids (.get_raft_group0_id :: ev0 ++ evl)
        = found_group0_ids evl := by
      have : found_group0_ids (.get_raft_group0_id :: ev0) = found_group0_ids ev0 := by
        simp [found_group0_ids]
      rw [found_group0_ids_append, this, hf0]; rfl
    cases res with
    | value g1 =>
      have hJ : (s2.join_group0_persist g1).trace
          = s.trace ++ ((.get_raft_group0_id :: ev0 ++ evl) ++ [.set_raft_group0_id g1]) := by
        simp [raft_group0.join_group0_persist, raft_group0.join_group0_persist_steps,
          raft_group0.set_raft_group0_id, htrace]
      have hlast : found_group0_ids [event.set_raft_group0_id g1] = [] := rfl
      simp only at hfound
      rw [hJ, List.drop_left, found_group0_ids_append, hids, hlast, List.append_nil] at hfound
      rcases hpl with hpl | ⟨ga, ra, hpa, hpb⟩
      · rw [hpl] at hfound; simp at hfound
      · rw [hpa] at hfound
        simp only [List.cons.injEq] at hfound
        obtain ⟨h1, h2⟩ := hfound
        subst h1 h2
        rcases hpb with hpb | ⟨g3, -, -, hres⟩
        · exact absurd (hpb g2 hmem) hne
        · simp at hres
    | out_of_fuel =>
      simp only at hfound
      rw [htrace, List.drop_left, hids] at hfound
      rcases hpl with hpl | ⟨ga, ra, hpa, hpb⟩
      · rw [hpl] at hfound; simp at hfound
      · rw [hpa] at hfound
        simp only [List.cons.injEq] at hfound
        obtain ⟨h1, h2⟩ := hfound
        subst h1 h2
        rcases hpb with hpb | ⟨g3, -, -, hres⟩
        · exact absurd (hpb g2 hmem) hne
        · simp at hres
    | thrown e =>
      simp only at hfound ⊢
      rw [htrace, List.drop_left] at hfound ⊢
      rw [hids] at hfound
      rcases hpl with hpl | ⟨ga, ra, hpa, hpb⟩
      · rw [hpl] at hfound; simp at hfound
      · rw [hpa] at hfound
        simp only [List.cons.injEq] at hfound
        obtain ⟨h1, h2⟩ := hfound
        subst h1 h2
        rcases hpb with hpb | ⟨g3, -, hall, hres⟩
        · exact absurd (hpb g2 hmem) hne
        · have h23 : g2 = g3 := by
            rcases hall g2 hmem with h | h
            · exact absurd h hne
            · exact h
          subst h23
          have hres : e = .two_clusters ga g2 := by simpa using hres
          refine ⟨by rw [hres], ?_, hjl, ?_⟩
          · rw [hkl, hk0]; simpa [raft_group0.log] using hnull
          · intro e he
            rcases List.mem_append.1 he with he | he
            · rcases List.mem_cons.1 he with he | he
              · subst he; intro x hx; simp at hx
              · exact hs0 e he
            · exact hsl e he

/-- C5, on a fresh node whose seed first reports group 5 and then group 6: the attempt
finds 5 then 6 and fails with the two-clusters error. -/
theorem join_group0_two_clusters_witness :
    found_group0_ids (((fresh_node 7 [7, 8]).join_group0 toy overlapping_seeds_env 3).1.trace.drop
      (fresh_node 7 [7, 8]).trace.length) = [⟨5⟩, ⟨6⟩] ∧
    ((fresh_node 7 [7, 8]).join_group0 toy overlapping_seeds_env 3).2
      = .thrown (.two_clusters ⟨5⟩ ⟨6⟩) ∧
    ((fresh_node 7 [7, 8]).join_group0 toy overlapping_seeds_env 3).1.sys_ks.raft_group0_id
      = ⟨0⟩ ∧
    ((fresh_node 7 [7, 8]).join_group0 toy overlapping_seeds_env 3).1.joined_group0 = false :=
  have h := join_group0_two_clusters toy overlapping_seeds_env 3 (fresh_node 7 [7, 8])
    ⟨5⟩ [⟨6⟩] ⟨6⟩ (by decide) (by simp) (by decide)
  ⟨by decide, h.1, h.2.1, h.2.2.1⟩

/-! ## Confirmation of membership before the write -/

/-- A trace that records no found identifier records no found descriptor. -/
theorem found_descriptors_of_ids (evs : List event) (h : found_group0_ids evs = []) :
    found_descriptors evs = [] := by
  simp only [found_group0_ids, found_descriptors, List.filterMap_eq_nil_iff] at h ⊢
  intro e he
  have h1 := h e he
  cases e <;> simp at h1 ⊢

/-- The descriptors found in two traces put end to end. -/
theorem found_descriptors_append (a b : List event) :
    found_descriptors (a ++ b) = found_descriptors a ++ found_descriptors b := by
  simp [found_descriptors, List.filterMap_append]

/-- The descriptor found last in a trace that ends with a discovery outcome followed by
actions that find nothing. -/
theorem last_found_group0_of_found (pre evs : List event) (i : group0_info)
    (h : found_group0_ids evs = []) :
    last_found_group0 (pre ++ .found_group0 i :: evs) = some i := by
  have h1 : found_descriptors (.found_group0 i :: evs) = [i] := by
    have h2 : found_descriptors (.found_group0 i :: evs) = i :: found_descriptors evs := by
      simp [found_descriptors]
    rw [h2, found_descriptors_of_ids evs h]
  simp [last_found_group0, found_descriptors_append, h1]

/-- The descriptor found last in the second of two traces is the one found last in the
two put end to end. -/
theorem last_found_group0_append (a b : List event) (i : group0_info)
    (h : last_found_group0 b = some i) : last_found_group0 (a ++ b) = some i := by
  simp only [last_found_group0, found_descriptors_append] at h ⊢
  rw [List.getLast?_append, h]
  rfl

/-- Actions that find nothing, put after a trace, leave the descriptor found last. -/
theorem last_found_group0_append_nil (a b : List event) (h : found_group0_ids b = []) :
    last_found_group0 (a ++ b) = last_found_group0 a := by
  simp [last_found_group0, found_descriptors_append, found_descriptors_of_ids b h]

/-- At every `break` of the loop of `join_group0`, the descriptor found last carries the
identifier the loop returns, and either the membership check passed on the server of that
identifier or the modify-config request sent last, to the leader named by that
descriptor, was answered successfully. -/
theorem join_group0_loop_leader {D AM : Type} (C : collaborators D AM) (env : environment)
    (n : Nat) :
    ∀ (fuel : Nat) (server : Option group_id) (group0_id : group_id)
      (my_addr : server_address) (s s' : raft_group0 D AM) (g : group_id),
      (∀ h, server = some h → h = group0_id) →
      raft_group0.join_group0_loop C env n fuel server group0_id my_addr s = (s', .value g) →
      ∃ evs g0_info,
        s'.trace = s.trace ++ evs ∧
        last_found_group0 evs = some g0_info ∧
        g0_info.group0_id = g ∧
        ((s'._raft_gr.get_server g).configuration.contains my_addr.id = true ∨
          (env.modify_config_reply (s'.clock - 1) = .reply () ∧
            s'.trace.getLast? = some (.send_group0_modify_config
              (C.raft_addr_to_inet_addr g0_info.addr) g [⟨my_addr, false⟩] []))) := by
  intro fuel
  induction fuel with
  | zero =>
    intro server group0_id my_addr s s' g _ h
    simp [raft_group0.join_group0_loop] at h
  | succ k ih =>
    intro server group0_id my_addr s s' g hsrv h
    obtain ⟨⟨evd, htd, -⟩, -⟩ := discover_group0_frame C env n my_addr s
    simp only [raft_group0.join_group0_loop] at h
    generalize s.discover_group0 C env n my_addr = d at h htd
    obtain ⟨s1, res⟩ := d
    cases res with
    | out_of_fuel => simp at h
    | thrown e => simp at h
    | value g0_info =>
      simp only at h htd
      obtain ⟨⟨evi, hti, hfi, -⟩, -, -⟩ := join_group0_iteration_frame C env server
        group0_id my_addr g0_info s1
      by_cases hsame : (server.isSome && group0_id != g0_info.group0_id) = true
      · simp [raft_group0.join_group0_iteration, hsame] at h
      · have hsame : (server.isSome && group0_id != g0_info.group0_id) = false := by
          simpa using hsame
        obtain ⟨-, heq⟩ := join_group0_iteration_eq C env server group0_id my_addr
          g0_info s1 hsrv hsame
        rw [heq] at h hti
        generalize hit : raft_group0.join_group0_membership C env g0_info.group0_id
          g0_info.group0_id my_addr g0_info _ = it at h hti
        cases it with
        | left s2 r =>
          simp only [Prod.mk.injEq] at h
          obtain ⟨h1, h2⟩ := h
          subst h1 h2
          obtain ⟨hb, hc⟩ := join_group0_membership_break C env _ _ _ _ _ _ _ hit
          subst hb
          simp only [join_step.state] at hti
          exact ⟨evd ++ .found_group0 g0_info :: evi, g0_info, by rw [hti, htd]; simp,
            last_found_group0_of_found evd evi g0_info hfi, rfl, hc⟩
        | again s2 srv gid =>
          simp only at h
          obtain ⟨ha, hb⟩ := join_group0_membership_again C env _ _ _ _ _ _ _ _ hit
          subst ha hb
          simp only [join_step.state] at hti
          obtain ⟨evr, i, htr, hlr, hgr, hcr⟩ := ih (some g0_info.group0_id)
            g0_info.group0_id my_addr s2 s' g (fun x hx => by simpa using hx.symm) h
          exact ⟨(evd ++ .found_group0 g0_info :: evi) ++ evr, i,
            by rw [htr, hti, htd]; simp, last_found_group0_append _ evr i hlr, hgr, hcr⟩

/-- C4 (as stated, refuted): a fresh node with seeds 7 and 8 discovers group 5 led by
node 2, asks the leader to add it, and the leader accepts. `join_group0` then writes the
identifier to local storage although the configuration of the local server, to which
nothing has been replicated, does not contain this node. -/
theorem join_group0_persists_without_local_membership :
    ((fresh_node 7 [7, 8]).join_group0 toy welcoming_env 3).2 = .value () ∧
    ((fresh_node 7 [7, 8]).join_group0 toy welcoming_env 3).1.trace.getLast?
      = some (.set_raft_group0_id ⟨5⟩) ∧
    ((fresh_node 7 [7, 8]).join_group0 toy welcoming_env 3).1.sys_ks.raft_group0_id = ⟨5⟩ ∧
    ((fresh_node 7 [7, 8]).join_group0 toy welcoming_env 3).1.sys_ks.raft_server_id = ⟨100⟩ ∧
    (((fresh_node 7 [7, 8]).join_group0 toy welcoming_env 3).1._raft_gr.get_server
      ⟨5⟩).configuration.contains ⟨100⟩ = false := by
  decide

/-- C4 (amended): in the discovery path of `join_group0` (no identifier persisted yet),
the group identifier is written only once membership is confirmed in one of two ways. A
run that does not return successfully writes nothing and leaves the persisted identifier
null; a run that returns successfully writes. For every run whose trace contains the
write of an identifier g: the run returns successfully, the write is its last action and
its only write, g is the identifier persisted, g is the group of the descriptor found by
the last discovery, and, at the write (which changes neither the engine nor the clock),
either the configuration of the local server for g contains this node's identity, or the
action just before the write is the modify-config request adding this node as a
non-voter, sent to the leader named by that descriptor and answered successfully. -/
theorem join_group0_persists_after_confirmation {D AM : Type} (C : collaborators D AM)
    (env : environment) (fuel : Nat) (s : raft_group0 D AM)
    (hnull : s.sys_ks.raft_group0_id = ⟨0⟩) :
    ((s.join_group0 C env fuel).2 ≠ .value () →
      (s.join_group0 C env fuel).1.sys_ks.raft_group0_id = ⟨0⟩ ∧
      ∀ g, event.set_raft_group0_id g ∉
        (s.join_group0 C env fuel).1.trace.drop s.trace.length) ∧
    ((s.join_group0 C env fuel).2 = .value () →
      ∃ g, event.set_raft_group0_id g ∈
        (s.join_group0 C env fuel).1.trace.drop s.trace.length) ∧
    ∀ g, event.set_raft_group0_id g ∈
        (s.join_group0 C env fuel).1.trace.drop s.trace.length →
      (s.join_group0 C env fuel).2 = .value () ∧
      (s.join_group0 C env fuel).1.sys_ks.raft_group0_id = g ∧
      (s.join_group0 C env fuel).1.trace.getLast? = some (.set_raft_group0_id g) ∧
      (∀ x, event.set_raft_group0_id x ∉
        ((s.join_group0 C env fuel).1.trace.drop s.trace.length).dropLast) ∧
      ∃ g0_info,
        last_found_group0 ((s.join_group0 C env fuel).1.trace.drop s.trace.length)
          = some g0_info ∧
        g0_info.group0_id = g ∧
        (((s.join_group0 C env fuel).1._raft_gr.get_server g).configuration.contains
            ((s.log .get_raft_group0_id).load_or_create_my_addr C env).2.id = true ∨
          (env.modify_config_reply ((s.join_group0 C env fuel).1.clock - 1) = .reply () ∧
            (s.join_group0 C env fuel).1.trace.dropLast.getLast? =
              some (.send_group0_modify_config (C.raft_addr_to_inet_addr g0_info.addr) g
                [⟨((s.log .get_raft_group0_id).load_or_create_my_addr C env).2, false⟩]
                []))) := by
  by_cases hj : s.joined_group0 = true
  · have hjoin : s.join_group0 C env fuel = (s, .thrown .assertion_failed) := by
      simp [raft_group0.join_group0, hj]
    rw [hjoin]
    simp [hnull]
  · have hb : (s.sys_ks.raft_group0_id).to_bool = false := by
      rw [hnull]; rfl
    have hjoin : s.join_group0 C env fuel =
        match raft_group0.join_group0_loop C env fuel fuel none s.sys_ks.raft_group0_id
          ((s.log .get_raft_group0_id).load_or_create_my_addr C env).2
          ((s.log .get_raft_group0_id).load_or_create_my_addr C env).1 with
        | (s2, .value group0_id) => (s2.join_group0_persist group0_id, .value ())
        | (s2, .thrown e) => (s2, .thrown e)
        | (s2, .out_of_fuel) => (s2, .out_of_fuel) := by
      simp [raft_group0.join_group0, hj, hb]
    obtain ⟨⟨ev0, ht0, hf0, hs0⟩, hk0, -⟩ := load_or_create_my_addr_frame C env
      (s.log .get_raft_group0_id)
    obtain ⟨evl, htl, hkl, -, hsl, -, -⟩ := join_group0_loop_ids C env fuel fuel none
      s.sys_ks.raft_group0_id ((s.log .get_raft_group0_id).load_or_create_my_addr C env).2
      ((s.log .get_raft_group0_id).load_or_create_my_addr C env).1
      (fun x hx => by simp at hx)
    rw [hjoin]
    generalize hl : raft_group0.join_group0_loop C env fuel fuel none s.sys_ks.raft_group0_id
          ((s.log .get_raft_group0_id).load_or_create_my_addr C env).2
          ((s.log .get_raft_group0_id).load_or_create_my_addr C env).1 = l at htl hkl
    obtain ⟨s2, res⟩ := l
    simp only at htl hkl
    have htrace : s2.trace = s.trace ++ (.get_raft_group0_id :: ev0 ++ evl) := by
      rw [htl, ht0]; simp [raft_group0.log]
    have hid : s2.sys_ks.raft_group0_id = ⟨0⟩ := by
      rw [hkl, hk0]; simpa [raft_group0.log] using hnull
    have hnw : ∀ x, event.set_raft_group0_id x ∉ event.get_raft_group0_id :: ev0 ++ evl := by
      intro x hx
      rcases List.mem_append.1 hx with hx | hx
      · rcases List.mem_cons.1 hx with hx | hx
        · simp at hx
        · exact hs0 _ hx x rfl
      · exact hsl _ hx x rfl
    cases res with
    | thrown e =>
      simp only [htrace, List.drop_left]
      exact ⟨fun _ => ⟨hid, hnw⟩, fun h => by simp at h, fun g hg => absurd hg (hnw g)⟩
    | out_of_fuel =>
      simp only [htrace, List.drop_left]
      exact ⟨fun _ => ⟨hid, hnw⟩, fun h => by simp at h, fun g hg => absurd hg (hnw g)⟩
    | value g1 =>
      obtain ⟨evs, i, hte, hli, hgi, hc⟩ := join_group0_loop_leader C env fuel fuel none _ _ _
        s2 g1 (fun x hx => by simp at hx) hl
      have hevs : evs = evl := List.append_cancel_left (hte.symm.trans htl)
      subst hevs
      have hJ : (s2.join_group0_persist g1).trace
          = s.trace ++ ((.get_raft_group0_id :: ev0 ++ evs) ++ [.set_raft_group0_id g1]) := by
        simp [raft_group0.join_group0_persist, raft_group0.join_group0_persist_steps,
          raft_group0.set_raft_group0_id, htrace]
      have hJ2 : (s2.join_group0_persist g1).trace = s2.trace ++ [.set_raft_group0_id g1] := by
        simp [raft_group0.join_group0_persist, raft_group0.join_group0_persist_steps,
          raft_group0.set_raft_group0_id]
      have hlast : last_found_group0
          ((.get_raft_group0_id :: ev0 ++ evs) ++ [.set_raft_group0_id g1]) = some i := by
        rw [last_found_group0_append_nil (.get_raft_group0_id :: ev0 ++ evs)
          [.set_raft_group0_id g1] rfl]
        exact last_found_group0_append _ evs i hli
      have hdrop : (s2.join_group0_persist g1).trace.drop s.trace.length
          = (.get_raft_group0_id :: ev0 ++ evs) ++ [.set_raft_group0_id g1] := by
        rw [hJ, List.drop_left]
      have hgr : (s2.join_group0_persist g1)._raft_gr = s2._raft_gr := rfl
      have hclock : (s2.join_group0_persist g1).clock = s2.clock := rfl
      have hks : (s2.join_group0_persist g1).sys_ks.raft_group0_id = g1 := rfl
      simp only
      rw [hdrop]
      refine ⟨fun h => absurd rfl h, fun _ => ⟨g1, by simp⟩, ?_⟩
      intro g hg
      have hg1 : g = g1 := by
        rcases List.mem_append.1 hg with hg | hg
        · exact absurd hg (hnw g)
        · simpa using hg
      subst hg1
      refine ⟨trivial, hks, ?_, ?_, i, hlast, hgi, ?_⟩
      · rw [hJ2]
        simp
      · intro x hx
        rw [List.dropLast_concat] at hx
        exact hnw x hx
      · rw [hgr, hclock, hJ2, List.dropLast_concat]
        exact hc

/-- C4 (amended), on the fresh node welcomed by the leader of group 5 (node 2 at address
8), and on the same node when every peer-exchange request fails unexpectedly: the first
run writes 5 after the leader at address 8 answered the modify-config request, the
second run fails and writes nothing. -/
theorem join_group0_persists_after_confirmation_witness :
    (fresh_node 7 [7, 8]).sys_ks.raft_group0_id = ⟨0⟩ ∧
    event.set_raft_group0_id ⟨5⟩ ∈
      ((fresh_node 7 [7, 8]).join_group0 toy welcoming_env 3).1.trace.drop
        (fresh_node 7 [7, 8]).trace.length ∧
    ((fresh_node 7 [7, 8]).join_group0 toy welcoming_env 3).1.trace.dropLast.getLast? =
      some (.send_group0_modify_config 8 ⟨5⟩ [⟨⟨⟨100⟩, [7]⟩, false⟩] []) ∧
    (((fresh_node 7 [7, 8]).join_group0 toy welcoming_env 3).2 = .value () ∧
      ((fresh_node 7 [7, 8]).join_group0 toy welcoming_env 3).1.sys_ks.raft_group0_id = ⟨5⟩ ∧
      ((fresh_node 7 [7, 8]).join_group0 toy welcoming_env 3).1.trace.getLast?
        = some (.set_raft_group0_id ⟨5⟩) ∧
      (∀ x, event.set_raft_group0_id x ∉
        (((fresh_node 7 [7, 8]).join_group0 toy welcoming_env 3).1.trace.drop
          (fresh_node 7 [7, 8]).trace.length).dropLast) ∧
      ∃ g0_info,
        last_found_group0 (((fresh_node 7 [7, 8]).join_group0 toy welcoming_env 3).1.trace.drop
          (fresh_node 7 [7, 8]).trace.length) = some g0_info ∧
        g0_info.group0_id = ⟨5⟩ ∧
        ((((fresh_node 7 [7, 8]).join_group0 toy welcoming_env 3).1._raft_gr.get_server
            ⟨5⟩).configuration.contains
            (((fresh_node 7 [7, 8]).log .get_raft_group0_id).load_or_create_my_addr toy
              welcoming_env).2.id = true ∨
          (welcoming_env.modify_config_reply
              (((fresh_node 7 [7, 8]).join_group0 toy welcoming_env 3).1.clock - 1)
                = .reply () ∧
            ((fresh_node 7 [7, 8]).join_group0 toy welcoming_env 3).1.trace.dropLast.getLast? =
              some (.send_group0_modify_config (toy.raft_addr_to_inet_addr g0_info.addr) ⟨5⟩
                [⟨(((fresh_node 7 [7, 8]).log .get_raft_group0_id).load_or_create_my_addr toy
                  welcoming_env).2, false⟩] [])))) ∧
    ((fresh_node 7 [7, 8]).join_group0 toy failing_env 3).2 = .thrown (.other 3) ∧
    ((fresh_node 7 [7, 8]).join_group0 toy failing_env 3).1.sys_ks.raft_group0_id = ⟨0⟩ :=
  ⟨rfl, by decide, by decide,
    (join_group0_persists_after_confirmation toy welcoming_env 3 (fresh_node 7 [7, 8])
      rfl).2.2 ⟨5⟩ (by decide),
    by decide,
    ((join_group0_persists_after_confirmation toy failing_env 3 (fresh_node 7 [7, 8])
      rfl).1 (by decide)).1⟩

/-! ## Durability of the discovered peers -/

/-- The rows of the table after one row is applied: the row itself, and the rows with
another clustering key. -/
theorem mem_apply_row (t : discovery_table) (row r : server_info × server_id) :
    r ∈ apply_row t row ↔ r = row ∨ (r ∈ t ∧ r.1 ≠ row.1) := by
  simp only [apply_row]
  split
  · rename_i hany
    simp only [List.any_eq_true, beq_iff_eq] at hany
    obtain ⟨r0, hr0, hk0⟩ := hany
    simp only [List.mem_map]
    constructor
    · rintro ⟨x, hx, rfl⟩
      by_cases hk : x.1 = row.1
      · left; simp [hk]
      · right
        simp only [beq_iff_eq, hk, if_false]
        exact ⟨hx, hk⟩
    · rintro (rfl | ⟨hr, hk⟩)
      · exact ⟨r0, hr0, by simp [hk0]⟩
      · exact ⟨r, hr, by simp [hk]⟩
  · rename_i hany
    simp only [List.any_eq_true, beq_iff_eq, not_exists, not_and] at hany
    simp only [List.mem_append, List.mem_singleton]
    constructor
    · rintro (hr | rfl)
      · exact Or.inr ⟨hr, hany r hr⟩
      · exact Or.inl rfl
    · rintro (rfl | ⟨hr, _⟩)
      · exact Or.inr rfl
      · exact Or.inl hr

/-- The rows of the table after a mutation with pairwise distinct clustering keys: the
rows of the mutation, and the rows whose key the mutation does not write. -/
theorem mem_mutate_locally (m : mutation) :
    ∀ (t : discovery_table), (m.map Prod.fst).Nodup →
      ∀ r, r ∈ mutate_locally t m ↔ r ∈ m ∨ (r ∈ t ∧ r.1 ∉ m.map Prod.fst) := by
  induction m with
  | nil =>
    intro t _ r
    simp [mutate_locally]
  | cons row rest ih =>
    intro t hnd r
    simp only [List.map_cons, List.nodup_cons] at hnd
    obtain ⟨hrow, hrest⟩ := hnd
    have hstep : mutate_locally t (row :: rest) = mutate_locally (apply_row t row) rest := rfl
    rw [hstep, ih (apply_row t row) hrest r, mem_apply_row]
    simp only [List.mem_cons, List.map_cons, not_or]
    constructor
    · rintro (h | ⟨h | ⟨h1, h2⟩, h3⟩)
      · exact Or.inl (Or.inr h)
      · exact Or.inl (Or.inl h)
      · exact Or.inr ⟨h1, h2, h3⟩
    · rintro ((h | h) | ⟨h1, h2, h3⟩)
      · rw [h]
        exact Or.inr ⟨Or.inl rfl, hrow⟩
      · exact Or.inl h
      · exact Or.inr ⟨Or.inr ⟨h1, h2⟩, h3⟩

/-- Emplacing rows whose identity is determined by their key, into a set that agrees with
them, yields exactly the set together with the rows. -/
theorem mem_foldl_emplace {D AM : Type} (C : collaborators D AM)
    (hkey : ∀ a b, C.peer_key_eq a b = true ↔ a.info = b.info) (t : discovery_table) :
    ∀ (acc : peer_set),
      (∀ r ∈ t, ∀ r2 ∈ t, r.1 = r2.1 → r = r2) →
      (∀ b ∈ acc, ∀ r ∈ t, b.info = r.1 → b.id = r.2) →
      ∀ a, a ∈ t.foldl (fun peers r => peer_set.emplace C.peer_key_eq peers ⟨r.2, r.1⟩) acc ↔
        a ∈ acc ∨ (a.info, a.id) ∈ t := by
  induction t with
  | nil =>
    intro acc _ _ a
    simp
  | cons row rest ih =>
    intro acc hfun hagree a
    simp only [List.foldl_cons]
    have hfun2 : ∀ r ∈ rest, ∀ r2 ∈ rest, r.1 = r2.1 → r = r2 := fun r hr r2 hr2 =>
      hfun r (List.mem_cons_of_mem _ hr) r2 (List.mem_cons_of_mem _ hr2)
    have hrow : (a.info, a.id) = row ↔ a = ⟨row.2, row.1⟩ := by
      cases a; cases row
      simp only [Prod.mk.injEq, server_address.mk.injEq]
      exact And.comm
    by_cases hany : acc.any (fun b => C.peer_key_eq b ⟨row.2, row.1⟩) = true
    · have hacc : peer_set.emplace C.peer_key_eq acc ⟨row.2, row.1⟩ = acc := by
        simp [peer_set.emplace, hany]
      rw [hacc, ih acc hfun2 (fun b hb r hr => hagree b hb r (List.mem_cons_of_mem _ hr)) a]
      simp only [List.mem_cons]
      constructor
      · rintro (h | h)
        · exact Or.inl h
        · exact Or.inr (Or.inr h)
      · rintro (h | h | h)
        · exact Or.inl h
        · simp only [List.any_eq_true] at hany
          obtain ⟨b, hb, hk⟩ := hany
          have hinfo : b.info = row.1 := (hkey b ⟨row.2, row.1⟩).1 hk
          have hid := hagree b hb row (List.mem_cons_self _ _) hinfo
          have : a = b := by
            rw [hrow.1 h]
            cases b
            simp only [server_address.mk.injEq]
            exact ⟨hid.symm, hinfo.symm⟩
          rw [this]
          exact Or.inl hb
        · exact Or.inr h
    · have hacc : peer_set.emplace C.peer_key_eq acc ⟨row.2, row.1⟩
          = acc ++ [⟨row.2, row.1⟩] := by
        simp [peer_set.emplace, hany]
      have hag2 : ∀ b ∈ acc ++ [(⟨row.2, row.1⟩ : server_address)], ∀ r ∈ rest,
          b.info = r.1 → b.id = r.2 := by
        intro b hb r hr hinfo
        rcases List.mem_append.1 hb with hb | hb
        · exact hagree b hb r (List.mem_cons_of_mem _ hr) hinfo
        · simp only [List.mem_singleton] at hb
          subst hb
          have := hfun row (List.mem_cons_self _ _) r (List.mem_cons_of_mem _ hr) hinfo
          rw [this]
      rw [hacc, ih (acc ++ [(⟨row.2, row.1⟩ : server_address)]) hfun2 hag2 a]
      simp only [List.mem_append, List.mem_singleton, List.mem_cons, List.not_mem_nil,
        or_false]
      constructor
      · rintro ((h | h) | h)
        · exact Or.inl h
        · exact Or.inr (Or.inl (hrow.2 h))
        · exact Or.inr (Or.inr h)
      · rintro (h | h | h)
        · exact Or.inl (Or.inl h)
        · exact Or.inl (Or.inr (hrow.1 h))
        · exact Or.inr h

/-- Storing a peer set with pairwise distinct `info` into a table all of whose rows
belong to peers of the set, and loading it back, yields exactly the set. -/
theorem load_store_discovered_peers {D AM : Type} (C : collaborators D AM)
    (hkey : ∀ a b, C.peer_key_eq a b = true ↔ a.info = b.info)
    (qp : discovery_table) (peers : peer_set)
    (hnd : (peers.map (fun p => p.info)).Nodup)
    (hrows : ∀ row ∈ qp, row.1 ∈ peers.map (fun p => p.info)) :
    ∀ a, a ∈ load_discovered_peers C (store_discovered_peers qp peers) ↔ a ∈ peers := by
  have hmap : (make_discovery_mutation peers).map Prod.fst = peers.map (fun p => p.info) := by
    simp [make_discovery_mutation, List.map_map, Function.comp_def]
  have hmem : ∀ r, r ∈ store_discovered_peers qp peers ↔ ∃ p ∈ peers, r = (p.info, p.id) := by
    intro r
    rw [store_discovered_peers, mem_mutate_locally _ qp (by rw [hmap]; exact hnd) r, hmap]
    constructor
    · rintro (h | ⟨h1, h2⟩)
      · simp only [make_discovery_mutation, List.mem_map] at h
        obtain ⟨p, hp, rfl⟩ := h
        exact ⟨p, hp, rfl⟩
      · exact absurd (hrows r h1) h2
    · rintro ⟨p, hp, rfl⟩
      left
      simp only [make_discovery_mutation, List.mem_map]
      exact ⟨p, hp, rfl⟩
  have hinj : ∀ p ∈ peers, ∀ q ∈ peers, p.info = q.info → p = q :=
    List.inj_on_of_nodup_map hnd
  intro a
  rw [load_discovered_peers, mem_foldl_emplace C hkey _ [] ?_ (by simp) a]
  · rw [hmem]
    simp only [List.not_mem_nil, false_or]
    constructor
    · rintro ⟨p, hp, h⟩
      have : a = p := by
        cases a; cases p
        simp only [Prod.mk.injEq] at h
        simp only [server_address.mk.injEq]
        exact ⟨h.2, h.1⟩
      rw [this]; exact hp
    · intro ha
      exact ⟨a, ha, rfl⟩
  · intro r hr r2 hr2 hk
    obtain ⟨p, hp, rfl⟩ := (hmem r).1 hr
    obtain ⟨q, hq, rfl⟩ := (hmem r2).1 hr2
    rw [hinj p hp q hq hk]

/-- C6 (as stated, refuted): `response` does not touch storage. Before the call the table
holds exactly the known peers; after a reply from node 2 has been merged by `response`,
node 2 is a known peer but loading the table does not yield it. -/
theorem response_not_persisted :
    load_discovered_peers toy lone_table = toy.discovery_peers lone_discovery._discovery ∧
    (⟨⟨2⟩, [8]⟩ : server_address) ∈ toy.discovery_peers
      (lone_discovery.response toy ⟨⟨2⟩, [8]⟩ [⟨⟨2⟩, [8]⟩])._discovery ∧
    (⟨⟨2⟩, [8]⟩ : server_address) ∉ load_discovered_peers toy lone_table := by
  decide

/-- C6 (amended): `request` (with the gate open) and `tick` store the full current peer
set before returning (`response` stores nothing; the peers it merges are stored by the
next `request` or `tick`). With peers keyed by `info`, after `request` or `tick` loading
the persisted peers yields exactly the in-memory known peer set, provided every row
already in the table belongs to a peer that is still known. -/
theorem request_tick_round_trip {D AM : Type} (C : collaborators D AM)
    (hkey : ∀ a b, C.peer_key_eq a b = true ↔ a.info = b.info)
    (self : persistent_discovery D) (qp : discovery_table) :
    (∀ peers, self._gate_closed = false →
      (self.request C qp peers).2.1 = store_discovered_peers qp
        (C.discovery_peers (self.request C qp peers).1._discovery) ∧
      (((C.discovery_peers (self.request C qp peers).1._discovery).map
          (fun p => p.info)).Nodup →
        (∀ row ∈ qp, row.1 ∈ (C.discovery_peers (self.request C qp peers).1._discovery).map
          (fun p => p.info)) →
        ∀ a, a ∈ load_discovered_peers C (self.request C qp peers).2.1 ↔
          a ∈ C.discovery_peers (self.request C qp peers).1._discovery)) ∧
    ((self.tick C qp).2.1 = store_discovered_peers qp
        (C.discovery_peers (self.tick C qp).1._discovery) ∧
      (((C.discovery_peers (self.tick C qp).1._discovery).map (fun p => p.info)).Nodup →
        (∀ row ∈ qp, row.1 ∈ (C.discovery_peers (self.tick C qp).1._discovery).map
          (fun p => p.info)) →
        ∀ a, a ∈ load_discovered_peers C (self.tick C qp).2.1 ↔
          a ∈ C.discovery_peers (self.tick C qp).1._discovery)) := by
  refine ⟨?_, ?_⟩
  · intro peers hgate
    have hstore : (self.request C qp peers).2.1 = store_discovered_peers qp
        (C.discovery_peers (self.request C qp peers).1._discovery) := by
      simp [persistent_discovery.request, hgate]
    refine ⟨hstore, fun hnd hrows => ?_⟩
    rw [hstore]
    exact load_store_discovered_peers C hkey qp _ hnd hrows
  · have hstore : (self.tick C qp).2.1 = store_discovered_peers qp
        (C.discovery_peers (self.tick C qp).1._discovery) := rfl
    refine ⟨hstore, fun hnd hrows => ?_⟩
    rw [hstore]
    exact load_store_discovered_peers C hkey qp _ hnd hrows

/-- C6 (amended), on the lone discovery of node 1: after a request that brings node 2,
and after a tick, the table loads back to exactly the known peers. -/
theorem request_tick_round_trip_witness :
    lone_discovery._gate_closed = false ∧
    (∀ a, a ∈ load_discovered_peers toy
        (lone_discovery.request toy lone_table [⟨⟨2⟩, [8]⟩]).2.1 ↔
      a ∈ toy.discovery_peers
        (lone_discovery.request toy lone_table [⟨⟨2⟩, [8]⟩]).1._discovery) ∧
    (∀ a, a ∈ load_discovered_peers toy (lone_discovery.tick toy lone_table).2.1 ↔
      a ∈ toy.discovery_peers (lone_discovery.tick toy lone_table).1._discovery) :=
  have h := request_tick_round_trip toy (fun a b => by simp [toy]) lone_discovery lone_table
  ⟨rfl, (h.1 [⟨⟨2⟩, [8]⟩] rfl).2 (by decide) (by decide),
    h.2.2 (by decide) (by decide)⟩

/-! ## Removing a node -/

/-- C8 (as stated, refuted): on a fresh node, whose own identity is not persisted, removing
address 9, which the address map resolves to no identity, does not return successfully:
it fails with the not-part-of-the-cluster error. -/
theorem remove_from_group0_unmapped_fails_without_identity :
    toy.find_replace_id (fresh_node 7 [7])._raft_gr.address_map 9
      (fresh_node 7 [7]).sys_ks.raft_server_id = none ∧
    ((fresh_node 7 [7]).remove_from_group0 toy quiet_env 1 9).2
      = .thrown .not_part_of_cluster := by
  decide

/-- C8 (amended): for every state and every target address that the address map resolves
to no identity, `remove_from_group0` makes no network calls, runs no discovery and asks
for no configuration change (its only action is at most the read of the local identity,
and the state is otherwise unchanged); it returns successfully when the consensus feature
is disabled or the local identity is persisted, and fails with the explicit
not-part-of-the-cluster error when the feature is enabled and the local identity is
missing. -/
theorem remove_from_group0_unmapped {D AM : Type} (C : collaborators D AM)
    (env : environment) (fuel : Nat) (node : inet_address) (s : raft_group0 D AM)
    (h : C.find_replace_id s._raft_gr.address_map node s.sys_ks.raft_server_id = none) :
    ((s._raft_gr.is_enabled = false ∨ s.sys_ks.raft_server_id ≠ ⟨0⟩) →
      (s.remove_from_group0 C env fuel node).2 = .value ()) ∧
    (s._raft_gr.is_enabled = true → s.sys_ks.raft_server_id = ⟨0⟩ →
      (s.remove_from_group0 C env fuel node).2 = .thrown .not_part_of_cluster) ∧
    ((s.remove_from_group0 C env fuel node).1 = s ∨
      (s.remove_from_group0 C env fuel node).1 = s.log .get_raft_server_id) ∧
    (∀ e ∈ (s.remove_from_group0 C env fuel node).1.trace.drop s.trace.length,
      e.is_network_call = false ∧ e.is_discovery = false ∧ e.is_modify_config = false) := by
  by_cases hen : s._raft_gr.is_enabled = true
  · by_cases hid : s.sys_ks.raft_server_id = ⟨0⟩
    · have hr : s.remove_from_group0 C env fuel node
          = (s.log .get_raft_server_id, .thrown .not_part_of_cluster) := by
        simp [raft_group0.remove_from_group0, hen, hid]
      rw [hr]
      refine ⟨fun hc => ?_, fun _ _ => rfl, Or.inr rfl, ?_⟩
      · rcases hc with hc | hc
        · rw [hen] at hc; simp at hc
        · exact absurd hid hc
      · simp [raft_group0.log, event.is_network_call, event.is_discovery,
          event.is_modify_config]
    · have hr : s.remove_from_group0 C env fuel node
          = (s.log .get_raft_server_id, .value ()) := by
        have h2 : C.find_replace_id (s.log .get_raft_server_id)._raft_gr.address_map node
            s.sys_ks.raft_server_id = none := h
        simp [raft_group0.remove_from_group0, hen, hid, h2]
      rw [hr]
      refine ⟨fun _ => rfl, fun _ h0 => absurd h0 hid, Or.inr rfl, ?_⟩
      simp [raft_group0.log, event.is_network_call, event.is_discovery,
        event.is_modify_config]
  · have hr : s.remove_from_group0 C env fuel node = (s, .value ()) := by
      simp [raft_group0.remove_from_group0, hen]
    rw [hr]
    exact ⟨fun _ => rfl, fun h1 => absurd h1 hen, Or.inl rfl, by simp⟩

/-- C8 (amended), on the joined follower (identity 1): removing the unmapped address 9
returns successfully after only reading the local identity. -/
theorem remove_from_group0_unmapped_witness :
    toy.find_replace_id joined_follower._raft_gr.address_map 9
      joined_follower.sys_ks.raft_server_id = none ∧
    (joined_follower.remove_from_group0 toy quiet_env 1 9).2 = .value () :=
  ⟨by decide,
    (remove_from_group0_unmapped toy quiet_env 1 9 joined_follower (by decide)).1
      (Or.inr (by decide))⟩

/-! ## Becoming a voter -/

/-- The local modify-config call appends exactly its request to the trace. -/
theorem group0_modify_config_trace {D AM : Type} (env : environment)
    (add : List config_member) (del : List server_id) (s : raft_group0 D AM) :
    (s.group0_modify_config env add del).1.trace
      = s.trace ++ [.modify_config s._raft_gr.group0_id add del] := by
  obtain ⟨-, ht, -⟩ := rpc_completed_frame env s._raft_gr.group0_id
    (s.log (.modify_config s._raft_gr.group0_id add del))
  simp only [raft_group0.group0_modify_config]
  split <;> simpa [raft_group0.log] using ht

/-- The outcome of `become_voter` once the feature is enabled and the phase is
joined(g). -/
theorem become_voter_joined {D AM : Type} (C : collaborators D AM) (env : environment)
    (s : raft_group0 D AM) (g : group_id) (hen : s._raft_gr.is_enabled = true)
    (hg : s._group0 = .group_id g) :
    s.become_voter C env =
      if s.sys_ks.raft_server_id.to_bool = false then
        (s.log .get_raft_server_id, .thrown .internal_error)
      else if (s._raft_gr.get_server g).configuration.can_vote s.sys_ks.raft_server_id
          = true then
        (s.log .get_raft_server_id, .value ())
      else if s._shutdown_gate_closed = true then
        (s.log .get_raft_server_id, .thrown .gate_closed)
      else
        (s.log .get_raft_server_id).group0_modify_config env
          [⟨⟨s.sys_ks.raft_server_id,
            C.inet_addr_to_raft_addr s._gossiper.get_broadcast_address⟩, true⟩] [] := by
  by_cases hb : s.sys_ks.raft_server_id.to_bool = true
  · by_cases hv : (s._raft_gr.get_server g).configuration.can_vote s.sys_ks.raft_server_id
        = true
    · simp [raft_group0.become_voter, hen, hg, raft_group0.joined_group0,
        raft_group0.load_my_addr, hb, raft_group0.log, hv]
    · by_cases hgate : s._shutdown_gate_closed = true
      · simp [raft_group0.become_voter, hen, hg, raft_group0.joined_group0,
          raft_group0.load_my_addr, hb, raft_group0.log, hv, hgate]
      · simp [raft_group0.become_voter, hen, hg, raft_group0.joined_group0,
          raft_group0.load_my_addr, hb, raft_group0.log, hv, hgate]
  · simp [raft_group0.become_voter, hen, hg, raft_group0.joined_group0,
      raft_group0.load_my_addr, hb, raft_group0.log]

/-- C9 (as stated, refuted): the joined outsider is not a member of the group-0
configuration at all, yet `become_voter` is not a no-op there: it asks the local engine to
add this node as a voter. -/
theorem become_voter_not_member :
    (joined_outsider._raft_gr.get_server ⟨5⟩).configuration.contains ⟨1⟩ = false ∧
    (joined_outsider.become_voter toy quiet_env).1.trace
      = [.get_raft_server_id, .modify_config ⟨5⟩ [⟨⟨⟨1⟩, [7]⟩, true⟩] []] := by
  decide

/-- C9 (amended): `become_voter` issues a modify-config request, the one that makes this
node a voter, exactly when the consensus feature is enabled, the phase is joined(g), the
local identity is persisted, the shutdown gate is open, and the configuration of group g
does not give this node a vote (it is a non-voting member, or not a member at all). When
the feature is disabled, group 0 is not joined, or the node is already a voter, it is a
no-op that issues no request and returns successfully. -/
theorem become_voter_cases {D AM : Type} (C : collaborators D AM) (env : environment)
    (s : raft_group0 D AM) :
    (∀ g, s._raft_gr.is_enabled = true → s._group0 = .group_id g →
      s.sys_ks.raft_server_id ≠ ⟨0⟩ → s._shutdown_gate_closed = false →
      (s._raft_gr.get_server g).configuration.can_vote s.sys_ks.raft_server_id = false →
      (s.become_voter C env).1.trace = s.trace ++
        [.get_raft_server_id,
         .modify_config s._raft_gr.group0_id
           [⟨⟨s.sys_ks.raft_server_id,
              C.inet_addr_to_raft_addr s._gossiper.get_broadcast_address⟩, true⟩] []]) ∧
    ((∃ e ∈ (s.become_voter C env).1.trace.drop s.trace.length, e.is_modify_config = true) →
      s._raft_gr.is_enabled = true ∧ s.sys_ks.raft_server_id ≠ ⟨0⟩ ∧
      s._shutdown_gate_closed = false ∧
      ∃ g, s._group0 = .group_id g ∧
        (s._raft_gr.get_server g).configuration.can_vote s.sys_ks.raft_server_id = false) ∧
    ((s._raft_gr.is_enabled = false ∨ s.joined_group0 = false) →
      s.become_voter C env = (s, .value ())) ∧
    (∀ g, s._raft_gr.is_enabled = true → s._group0 = .group_id g →
      s.sys_ks.raft_server_id ≠ ⟨0⟩ →
      (s._raft_gr.get_server g).configuration.can_vote s.sys_ks.raft_server_id = true →
      s.become_voter C env = (s.log .get_raft_server_id, .value ())) := by
  refine ⟨?_, ?_, ?_, ?_⟩
  · intro g hen hg hid hgate hvote
    have hb := server_id_to_bool_of_ne hid
    rw [become_voter_joined C env s g hen hg]
    simp only [hb, hvote, hgate, Bool.true_eq_false, Bool.false_eq_true, if_false]
    rw [group0_modify_config_trace]
    simp [raft_group0.log]
  · rintro ⟨e, he, hmod⟩
    by_cases hen : s._raft_gr.is_enabled = true
    · cases hg : s._group0 with
      | monostate =>
        simp [raft_group0.become_voter, raft_group0.joined_group0, hg] at he
      | persistent_discovery d =>
        simp [raft_group0.become_voter, raft_group0.joined_group0, hg] at he
      | group_id g =>
        rw [become_voter_joined C env s g hen hg] at he
        by_cases hb : s.sys_ks.raft_server_id.to_bool = true
        · have hid : s.sys_ks.raft_server_id ≠ ⟨0⟩ := by
            intro h0
            rw [h0] at hb
            simp [server_id.to_bool] at hb
          by_cases hv : (s._raft_gr.get_server g).configuration.can_vote
              s.sys_ks.raft_server_id = true
          · simp [hb, hv, raft_group0.log] at he
            subst he
            simp [event.is_modify_config] at hmod
          · by_cases hgate : s._shutdown_gate_closed = true
            · simp [hb, hv, hgate, raft_group0.log] at he
              subst he
              simp [event.is_modify_config] at hmod
            · exact ⟨hen, hid, by simpa using hgate, g, rfl, by simpa using hv⟩
        · simp [hb, raft_group0.log] at he
          subst he
          simp [event.is_modify_config] at hmod
    · simp [raft_group0.become_voter, hen] at he
  · rintro (h | h)
    · simp [raft_group0.become_voter, h]
    · simp [raft_group0.become_voter, h]
  · intro g hen hg hid hvote
    have hb := server_id_to_bool_of_ne hid
    rw [become_voter_joined C env s g hen hg]
    simp [hb, hvote]

/-- C9 (amended), on the joined follower, a non-voting member: the request that makes it
a voter is issued; and on a node that has not joined nothing happens. -/
theorem become_voter_cases_witness :
    (joined_follower.become_voter toy quiet_env).1.trace
      = [.get_raft_server_id, .modify_config ⟨5⟩ [⟨⟨⟨1⟩, [7]⟩, true⟩] []] ∧
    (fresh_node 7 [7]).become_voter toy quiet_env = (fresh_node 7 [7], .value ()) :=
  ⟨(become_voter_cases toy quiet_env joined_follower).1 ⟨5⟩ rfl rfl (by decide) rfl
      (by decide),
    (become_voter_cases toy quiet_env (fresh_node 7 [7])).2.2.1 (Or.inr rfl)⟩

/-! ## Startup -/

/-- C10 (as stated, refuted): on a node that completed bootstrap and has group 5
persisted but no local identity in storage, `setup_group0` does not end in phase
joined(5): loading the identity fails with an internal error and the phase stays
not-started. -/
theorem setup_group0_persisted_without_identity :
    restarted_without_identity._raft_gr.is_enabled = true ∧
    restarted_without_identity.sys_ks.bootstrap_complete = true ∧
    restarted_without_identity.sys_ks.raft_group0_id = ⟨5⟩ ∧
    (restarted_without_identity.setup_group0 toy quiet_env 1).2 = .thrown .internal_error ∧
    (restarted_without_identity.setup_group0 toy quiet_env 1).1._group0 = .monostate := by
  decide

/-- C10 (amended): `setup_group0` decides by exactly these cases. Feature disabled: it
does nothing (state and trace unchanged). Bootstrap completed and a non-null identifier g
persisted: it reads the identifier and runs `start_server_for_group0` for g, without
discovery; when the local identity is persisted this succeeds and the phase becomes
joined(g). Bootstrap completed and no identifier persisted: it only reads the identifier,
and the phase is unchanged. In every remaining case it runs `join_group0`. -/
theorem setup_group0_cases {D AM : Type} (C : collaborators D AM) (env : environment)
    (fuel : Nat) (s : raft_group0 D AM) :
    (s._raft_gr.is_enabled = false → s.setup_group0 C env fuel = (s, .value ())) ∧
    (∀ g, s._raft_gr.is_enabled = true → s.sys_ks.bootstrap_complete = true →
      s.sys_ks.raft_group0_id = g → g ≠ ⟨0⟩ →
      s.setup_group0 C env fuel = (s.log .get_raft_group0_id).start_server_for_group0 C g ∧
      (∀ e ∈ (s.setup_group0 C env fuel).1.trace.drop s.trace.length,
        e.is_discovery = false ∧ e.is_network_call = false) ∧
      (s.sys_ks.raft_server_id ≠ ⟨0⟩ →
        (s.setup_group0 C env fuel).2 = .value () ∧
        (s.setup_group0 C env fuel).1._group0 = .group_id g ∧
        (s.setup_group0 C env fuel).1.trace = s.trace ++
          [.get_raft_group0_id,
           .get_raft_server_id,
           .address_map_set ⟨s.sys_ks.raft_server_id,
             C.inet_addr_to_raft_addr s._gossiper.get_broadcast_address⟩,
           .create_server g ⟨s.sys_ks.raft_server_id,
             C.inet_addr_to_raft_addr s._gossiper.get_broadcast_address⟩,
           .start_server_for_group g])) ∧
    (s._raft_gr.is_enabled = true → s.sys_ks.bootstrap_complete = true →
      s.sys_ks.raft_group0_id = ⟨0⟩ →
      s.setup_group0 C env fuel = (s.log .get_raft_group0_id, .value ()) ∧
      (s.setup_group0 C env fuel).1._group0 = s._group0) ∧
    (s._raft_gr.is_enabled = true → s.sys_ks.bootstrap_complete = false →
      s.setup_group0 C env fuel = s.join_group0 C env fuel) := by
  refine ⟨?_, ?_, ?_, ?_⟩
  · intro hen
    simp [raft_group0.setup_group0, hen]
  · intro g hen hbc hg hnn
    have hb := group_id_to_bool_of_ne hnn
    have hsetup : s.setup_group0 C env fuel
        = (s.log .get_raft_group0_id).start_server_for_group0 C g := by
      simp [raft_group0.setup_group0, hen, hbc, hg, hb]
    refine ⟨hsetup, ?_, ?_⟩
    · rw [hsetup]
      by_cases hid : s.sys_ks.raft_server_id.to_bool = true
      · have ht : ((s.log .get_raft_group0_id).start_server_for_group0 C g).1.trace
            = s.trace ++ [.get_raft_group0_id, .get_raft_server_id,
                .address_map_set ⟨s.sys_ks.raft_server_id,
                  C.inet_addr_to_raft_addr s._gossiper.get_broadcast_address⟩,
                .create_server g ⟨s.sys_ks.raft_server_id,
                  C.inet_addr_to_raft_addr s._gossiper.get_broadcast_address⟩,
                .start_server_for_group g] := by
          simp [raft_group0.start_server_for_group0, hnn, raft_group0.load_my_addr, hid,
            raft_group0.log, raft_group0.create_server_for_group0,
            raft_group0.start_server_for_group]
        rw [ht, List.drop_left]
        intro e he
        simp at he
        rcases he with rfl | rfl | rfl | rfl | rfl <;>
          simp [event.is_discovery, event.is_network_call]
      · have ht : ((s.log .get_raft_group0_id).start_server_for_group0 C g).1.trace
            = s.trace ++ [.get_raft_group0_id, .get_raft_server_id] := by
          simp [raft_group0.start_server_for_group0, hnn, raft_group0.load_my_addr, hid,
            raft_group0.log]
        rw [ht, List.drop_left]
        intro e he
        simp at he
        rcases he with rfl | rfl <;> simp [event.is_discovery, event.is_network_call]
    · intro hid
      rw [hsetup]
      obtain ⟨h1, h2, -, -, h5⟩ := start_server_for_group0_ok C (s.log .get_raft_group0_id) g
        hnn (by simpa [raft_group0.log] using hid)
      refine ⟨h1, h2, ?_⟩
      rw [h5]
      simp [raft_group0.log]
  · intro hen hbc hnull
    have hb : s.sys_ks.raft_group0_id.to_bool = false := by rw [hnull]; rfl
    have hsetup : s.setup_group0 C env fuel = (s.log .get_raft_group0_id, .value ()) := by
      simp [raft_group0.setup_group0, hen, hbc, hb]
    exact ⟨hsetup, by rw [hsetup]; rfl⟩
  · intro hen hbc
    simp [raft_group0.setup_group0, hen, hbc]

/-- C10 (amended), one state for each case: a node with the feature disabled, the
restarted follower with group 5 and identity 1 persisted, a node that completed
bootstrap with nothing persisted, and a fresh node. -/
theorem setup_group0_cases_witness :
    ({ fresh_node 7 [7] with
        _raft_gr := { (fresh_node 7 [7])._raft_gr with is_enabled := false } }).setup_group0
      toy quiet_env 1 =
      ({ fresh_node 7 [7] with
        _raft_gr := { (fresh_node 7 [7])._raft_gr with is_enabled := false } }, .value ()) ∧
    (({ joined_follower with _group0 := .monostate }).setup_group0 toy quiet_env 1).1._group0
      = .group_id ⟨5⟩ ∧
    (({ fresh_node 7 [7] with
        sys_ks := { (fresh_node 7 [7]).sys_ks with bootstrap_complete := true } }).setup_group0
      toy quiet_env 1).1._group0 = .monostate ∧
    (fresh_node 7 [7]).setup_group0 toy quiet_env 1
      = (fresh_node 7 [7]).join_group0 toy quiet_env 1 :=
  ⟨(setup_group0_cases toy quiet_env 1 _).1 rfl,
    ((setup_group0_cases toy quiet_env 1
      { joined_follower with _group0 := .monostate }).2.1 ⟨5⟩ rfl rfl rfl
        (by decide)).2.2 (by decide) |>.2.1,
    ((setup_group0_cases toy quiet_env 1 _).2.2.1 rfl rfl rfl).2,
    (setup_group0_cases toy quiet_env 1 (fresh_node 7 [7])).2.2.2 rfl rfl⟩

/-! ## The founder -/

/-- The server created by the first-discovery block starts from the initial configuration:
this node as the only voter when the descriptor names this node, empty otherwise. -/
theorem join_group0_first_configuration {D AM : Type} (C : collaborators D AM)
    (g0_info : group0_info) (my_addr : server_address) (s : raft_group0 D AM) :
    ((s.join_group0_first C g0_info my_addr)._raft_gr.get_server
        g0_info.group0_id).configuration =
      (if g0_info.addr.id = my_addr.id then { current := [⟨my_addr, true⟩] }
        else { current := [] }) ∧
    (s.join_group0_first C g0_info my_addr).trace = s.trace ++
      [.address_map_set my_addr, .create_server g0_info.group0_id my_addr,
       .bootstrap g0_info.group0_id
        (if g0_info.addr.id = my_addr.id then { current := [⟨my_addr, true⟩] }
          else { current := [] }),
       .start_server_for_group g0_info.group0_id] := by
  constructor
  · simp [raft_group0.join_group0_first, raft_group0.create_server_for_group0,
      raft_group0.bootstrap, raft_group0.start_server_for_group]
  · simp [raft_group0.join_group0_first, raft_group0.create_server_for_group0,
      raft_group0.bootstrap, raft_group0.start_server_for_group]

/-- The discovery path of `join_group0` once the first discovery has returned a
descriptor: the first-discovery block, the membership step, and either the end of the
loop or its further iterations. -/
theorem join_group0_after_first_discovery {D AM : Type} (C : collaborators D AM)
    (env : environment) (fuel : Nat) (s s0 s1 : raft_group0 D AM)
    (my_addr : server_address) (g0_info : group0_info)
    (hnj : s.joined_group0 = false) (hnull : s.sys_ks.raft_group0_id = ⟨0⟩)
    (hs0 : (s.log .get_raft_group0_id).load_or_create_my_addr C env = (s0, my_addr))
    (hdisc : s0.discover_group0 C env (fuel + 1) my_addr = (s1, .value g0_info)) :
    s.join_group0 C env (fuel + 1) =
      match (match ((s1.log (.found_group0 g0_info)).join_group0_first C g0_info
            my_addr).join_group0_membership C env g0_info.group0_id g0_info.group0_id
            my_addr g0_info with
          | .left s2 r => (s2, r)
          | .again s2 server group0_id =>
            raft_group0.join_group0_loop C env (fuel + 1) fuel (some server) group0_id
              my_addr s2) with
      | (s2, .value group0_id) => (s2.join_group0_persist group0_id, .value ())
      | (s2, .thrown e) => (s2, .thrown e)
      | (s2, .out_of_fuel) => (s2, .out_of_fuel) := by
  have hb : (s.sys_ks.raft_group0_id).to_bool = false := by rw [hnull]; rfl
  have h1 : ((s.log .get_raft_group0_id).load_or_create_my_addr C env).1 = s0 := by
    rw [hs0]
  have h2 : ((s.log .get_raft_group0_id).load_or_create_my_addr C env).2 = my_addr := by
    rw [hs0]
  simp only [raft_group0.join_group0, hnj, hb, Bool.false_eq_true, if_false, h1, h2,
    raft_group0.join_group0_loop, hdisc, raft_group0.join_group0_iteration,
    Option.isSome_none, Bool.false_and]

/-- C12: founder scenario of `join_group0`. When no group identifier is persisted and
the first discovery returns a descriptor (g, addr) whose address identity equals this
node's identity, the server is bootstrapped with an initial configuration whose only
member is this node as a voter; the membership check passes on the first loop iteration:
after the first discovery the actions are exactly found, address map set, create server,
bootstrap, start server, write of g (no modify-config request, no second discovery); g is
persisted and the phase ends as joined(g). When the first descriptor names a different
node, the server is bootstrapped with an empty configuration instead. -/
theorem join_group0_founder {D AM : Type} (C : collaborators D AM)
    (env : environment) (fuel : Nat) (s s0 s1 : raft_group0 D AM)
    (my_addr : server_address) (g : group_id) (addr : server_address)
    (hnj : s.joined_group0 = false) (hnull : s.sys_ks.raft_group0_id = ⟨0⟩)
    (hs0 : (s.log .get_raft_group0_id).load_or_create_my_addr C env = (s0, my_addr))
    (hdisc : s0.discover_group0 C env (fuel + 1) my_addr = (s1, .value ⟨g, addr⟩)) :
    (addr.id = my_addr.id →
      (s.join_group0 C env (fuel + 1)).2 = .value () ∧
      (s.join_group0 C env (fuel + 1)).1._group0 = .group_id g ∧
      (s.join_group0 C env (fuel + 1)).1.sys_ks.raft_group0_id = g ∧
      ((s.join_group0 C env (fuel + 1)).1._raft_gr.get_server g).configuration
        = { current := [⟨my_addr, true⟩] } ∧
      (s.join_group0 C env (fuel + 1)).1.trace = s1.trace ++
        [.found_group0 ⟨g, addr⟩, .address_map_set my_addr, .create_server g my_addr,
         .bootstrap g { current := [⟨my_addr, true⟩] }, .start_server_for_group g,
         .set_raft_group0_id g]) ∧
    (addr.id ≠ my_addr.id →
      ∃ rest, (s.join_group0 C env (fuel + 1)).1.trace = s1.trace ++
        [.found_group0 ⟨g, addr⟩, .address_map_set my_addr, .create_server g my_addr,
         .bootstrap g { current := [] }, .start_server_for_group g] ++ rest) := by
  have hjoin := join_group0_after_first_discovery C env fuel s s0 s1 my_addr ⟨g, addr⟩
    hnj hnull hs0 hdisc
  obtain ⟨hcfg, htr⟩ := join_group0_first_configuration C ⟨g, addr⟩ my_addr
    (s1.log (.found_group0 ⟨g, addr⟩))
  constructor
  · intro hid
    simp only [hid, if_true] at hcfg htr
    have hmem : ((s1.log (.found_group0 ⟨g, addr⟩)).join_group0_first C ⟨g, addr⟩
        my_addr).join_group0_membership C env g g my_addr ⟨g, addr⟩ =
        .left ((s1.log (.found_group0 ⟨g, addr⟩)).join_group0_first C ⟨g, addr⟩ my_addr)
          (.value g) := by
      simp [raft_group0.join_group0_membership, hcfg, configuration.contains]
    have hres : s.join_group0 C env (fuel + 1) =
        (((s1.log (.found_group0 ⟨g, addr⟩)).join_group0_first C ⟨g, addr⟩
          my_addr).join_group0_persist g, .value ()) := by
      rw [hjoin]
      simp only [hmem]
    rw [hres]
    refine ⟨rfl, rfl, rfl, hcfg, ?_⟩
    show ((s1.log (.found_group0 ⟨g, addr⟩)).join_group0_first C ⟨g, addr⟩ my_addr).trace
      ++ [.set_raft_group0_id g] = _
    rw [htr]
    simp [raft_group0.log]
  · intro hid
    simp only [hid, if_false] at htr
    obtain ⟨⟨evm, htm, -, -⟩, -, -⟩ := join_group0_membership_frame C env g g my_addr
      ⟨g, addr⟩ ((s1.log (.found_group0 ⟨g, addr⟩)).join_group0_first C ⟨g, addr⟩ my_addr)
    rw [hjoin]
    generalize hit : ((s1.log (.found_group0 ⟨g, addr⟩)).join_group0_first C ⟨g, addr⟩
      my_addr).join_group0_membership C env g g my_addr ⟨g, addr⟩ = it at htm
    have hbase : ((s1.log (.found_group0 ⟨g, addr⟩)).join_group0_first C ⟨g, addr⟩
        my_addr).trace = s1.trace ++
        [.found_group0 ⟨g, addr⟩, .address_map_set my_addr, .create_server g my_addr,
         .bootstrap g { current := [] }, .start_server_for_group g] := by
      rw [htr]; simp [raft_group0.log]
    have hfin : ∀ (l : raft_group0 D AM × result group_id) (evs : List event),
        l.1.trace = s1.trace ++
          [.found_group0 ⟨g, addr⟩, .address_map_set my_addr, .create_server g my_addr,
           .bootstrap g { current := [] }, .start_server_for_group g] ++ evs →
        ∃ rest, (match l with
          | (s2, .value group0_id) => (s2.join_group0_persist group0_id, result.value ())
          | (s2, .thrown e) => (s2, .thrown e)
          | (s2, .out_of_fuel) => (s2, .out_of_fuel)).1.trace = s1.trace ++
          [.found_group0 ⟨g, addr⟩, .address_map_set my_addr, .create_server g my_addr,
           .bootstrap g { current := [] }, .start_server_for_group g] ++ rest := by
      intro l evs hl
      obtain ⟨s2, res⟩ := l
      simp only at hl
      cases res with
      | value g1 =>
        exact ⟨evs ++ [.set_raft_group0_id g1], by
          simp [raft_group0.join_group0_persist, raft_group0.join_group0_persist_steps,
            raft_group0.set_raft_group0_id, hl]⟩
      | thrown e => exact ⟨evs, hl⟩
      | out_of_fuel => exact ⟨evs, hl⟩
    cases it with
    | left s2 r =>
      simp only [join_step.state] at htm
      exact hfin (s2, r) evm (by rw [htm, hbase])
    | again s2 srv gid =>
      simp only [join_step.state] at htm
      obtain ⟨ha, hb⟩ := join_group0_membership_again C env _ _ _ _ _ _ _ _ hit
      rw [ha, hb]
      obtain ⟨evl, htl, -⟩ := join_group0_loop_ids C env (fuel + 1) fuel (some g) g
        my_addr s2 (fun x hx => by simpa using hx.symm)
      exact hfin _ (evm ++ evl) (by rw [htl, htm, hbase]; simp)

/-- C12, on a fresh node whose only seed is itself: discovery elects the node, which
founds group 1001 with itself as the only voter and ends in joined(1001). -/
theorem join_group0_founder_witness :
    (fresh_node 7 [7]).joined_group0 = false ∧
    (fresh_node 7 [7]).sys_ks.raft_group0_id = ⟨0⟩ ∧
    ((fresh_node 7 [7]).join_group0 toy quiet_env 1).2 = .value () ∧
    ((fresh_node 7 [7]).join_group0 toy quiet_env 1).1._group0 = .group_id ⟨1001⟩ ∧
    ((fresh_node 7 [7]).join_group0 toy quiet_env 1).1.sys_ks.raft_group0_id = ⟨1001⟩ ∧
    (((fresh_node 7 [7]).join_group0 toy quiet_env 1).1._raft_gr.get_server
      ⟨1001⟩).configuration = { current := [⟨⟨⟨100⟩, [7]⟩, true⟩] } :=
  have h := (join_group0_founder toy quiet_env 0 (fresh_node 7 [7])
    (((fresh_node 7 [7]).log .get_raft_group0_id).load_or_create_my_addr toy quiet_env).1
    (((((fresh_node 7 [7]).log .get_raft_group0_id).load_or_create_my_addr toy
      quiet_env).1).discover_group0 toy quiet_env 1 ⟨⟨100⟩, [7]⟩).1
    ⟨⟨100⟩, [7]⟩ ⟨1001⟩ ⟨⟨100⟩, [7]⟩ rfl rfl rfl rfl).1 rfl
  ⟨rfl, rfl, h.1, h.2.1, h.2.2.1, h.2.2.2.1⟩

/-! ## Construction of a persistent discovery -/

/-- Inserting a list of seeds into a peer set keeps the set as it is and appends those
seeds that match no entry present when their turn comes. -/
theorem foldl_emplace_seeds (key_eq : server_address → server_address → Bool)
    (seeds : peer_list) :
    ∀ (peers : peer_set), ∃ added,
      seeds.foldl (peer_set.emplace key_eq) peers = peers ++ added ∧
      added.Sublist seeds ∧
      (∀ a ∈ added, ∀ d ∈ peers, key_eq d a = false) ∧
      added.Pairwise (fun a b => key_eq a b = false) ∧
      (∀ x ∈ seeds, x ∈ added ∨ ∃ e ∈ peers ++ added, key_eq e x = true) := by
  induction seeds with
  | nil =>
    intro peers
    exact ⟨[], by simp, List.Sublist.refl _, by simp, List.Pairwise.nil, by simp⟩
  | cons x xs ih =>
    intro peers
    by_cases hany : peers.any (fun b => key_eq b x) = true
    · obtain ⟨added, h1, h2, h3, h4, h5⟩ := ih peers
      refine ⟨added, ?_, List.Sublist.cons _ h2, h3, h4, ?_⟩
      · simp [peer_set.emplace, hany, h1]
      · intro y hy
        rcases List.mem_cons.1 hy with hy | hy
        · subst hy
          simp only [List.any_eq_true] at hany
          obtain ⟨b, hb, hk⟩ := hany
          exact Or.inr ⟨b, List.mem_append_left _ hb, hk⟩
        · exact h5 y hy
    · obtain ⟨added, h1, h2, h3, h4, h5⟩ := ih (peers ++ [x])
      have hx : ∀ d ∈ peers, key_eq d x = false := by
        intro d hd
        by_contra hk
        apply hany
        simp only [List.any_eq_true]
        exact ⟨d, hd, by simpa using hk⟩
      refine ⟨x :: added, ?_, List.Sublist.cons₂ _ h2, ?_, ?_, ?_⟩
      · simp [peer_set.emplace, hany, h1]
      · intro a ha d hd
        rcases List.mem_cons.1 ha with ha | ha
        · subst ha; exact hx d hd
        · exact h3 a ha d (List.mem_append_left _ hd)
      · refine List.Pairwise.cons ?_ h4
        intro a ha
        exact h3 a ha x (by simp)
      · intro y hy
        rcases List.mem_cons.1 hy with hy | hy
        · subst hy; exact Or.inl (List.mem_cons_self _ _)
        · rcases h5 y hy with h | ⟨e, he, hk⟩
          · exact Or.inl (List.mem_cons_of_mem _ h)
          · refine Or.inr ⟨e, ?_, hk⟩
            simpa using he

/-- C15: construction of persistent discovery. For every persisted table and every seed
list S, with D the peer set loaded from the table, the peer collection handed to the
state machine is D followed by seeds of S, exactly those that match no entry already
present under the key equality of the peer set: every added seed matches no entry of D
and no seed added before it, and every seed that is not added matches an entry of the
collection. Every persisted entry is kept unchanged; a seed that matches a disk entry is
discarded, so the disk entry with its recorded identity is the one retained. -/
theorem make_keeps_disk_entries {D AM : Type} (C : collaborators D AM)
    (self : server_address) (seeds : peer_list) (qp : discovery_table) :
    ∃ added,
      persistent_discovery.make C self seeds qp =
        { _discovery := C.discovery_new self (load_discovered_peers C qp ++ added),
          _gate_closed := false } ∧
      added.Sublist seeds ∧
      (∀ a ∈ added, ∀ d ∈ load_discovered_peers C qp, C.peer_key_eq d a = false) ∧
      added.Pairwise (fun a b => C.peer_key_eq a b = false) ∧
      (∀ x ∈ seeds, x ∈ added ∨
        ∃ e ∈ load_discovered_peers C qp ++ added, C.peer_key_eq e x = true) ∧
      (∀ x ∈ seeds, ∀ d ∈ load_discovered_peers C qp, C.peer_key_eq d x = true →
        x ∉ added ∧ d ∈ load_discovered_peers C qp ++ added) := by
  obtain ⟨added, h1, h2, h3, h4, h5⟩ := foldl_emplace_seeds C.peer_key_eq seeds
    (load_discovered_peers C qp)
  refine ⟨added, ?_, h2, h3, h4, h5, ?_⟩
  · simp [persistent_discovery.make, h1]
  · intro x _ d hd hk
    refine ⟨fun hx => ?_, List.mem_append_left _ hd⟩
    rw [h3 x hx d hd] at hk
    exact absurd hk (by simp)

/-- C15, with node 1 at address 7 on disk and the seeds 7 and 8, both without identity:
the disk entry of address 7 is kept with its identity and only the seed 8 is added. -/
theorem make_keeps_disk_entries_witness :
    load_discovered_peers toy lone_table = [⟨⟨1⟩, [7]⟩] ∧
    persistent_discovery.make toy ⟨⟨1⟩, [7]⟩ [⟨⟨0⟩, [7]⟩, ⟨⟨0⟩, [8]⟩] lone_table =
      { _discovery := toy.discovery_new ⟨⟨1⟩, [7]⟩ [⟨⟨1⟩, [7]⟩, ⟨⟨0⟩, [8]⟩],
        _gate_closed := false } := by
  decide

/-! ## The fan-out of a discovery round -/

/-- Once the tracker is set, `set_value` and `set_exception` have no effect. -/
theorem tracker_set_once (t : tracker) (h : t.is_set = true)
    (v : Option group0_info) (e : error) :
    t.set_value v = t ∧ t.set_exception e = t := by
  simp [tracker.set_value, tracker.set_exception, h]

/-- Once the tracker is set, a completing request changes neither the tracker nor the
discovery instance, whatever its outcome. -/
theorem run_reply_of_set {D AM : Type} (C : collaborators D AM)
    (acc : persistent_discovery D × tracker) (req : server_address × peer_list)
    (r : rpc_result group0_peer_exchange) (h : acc.2.is_set = true) :
    run_reply C acc req r = acc := by
  cases r with
  | reply reply => simp [run_reply, h]
  | failure e =>
    simp only [run_reply]
    split
    · rfl
    · rw [(tracker_set_once acc.2 h none e).2]

/-- Once the tracker is set, the rest of the round changes nothing. -/
theorem foldl_run_reply_of_set {D AM : Type} (C : collaborators D AM)
    (reply : server_address → rpc_result group0_peer_exchange) (l : request_list) :
    ∀ (acc : persistent_discovery D × tracker), acc.2.is_set = true →
      l.foldl (fun acc req => run_reply C acc req (reply req.1)) acc = acc := by
  induction l with
  | nil => intro acc _; rfl
  | cons req rest ih =>
    intro acc h
    simp only [List.foldl_cons]
    rw [run_reply_of_set C acc req _ h]
    exact ih acc h

/-- While the tracker is not set, requests that end in a transport failure or in a reply
without descriptor leave it unset; their peer lists are merged by `response`. -/
theorem foldl_run_reply_unset {D AM : Type} (C : collaborators D AM)
    (reply : server_address → rpc_result group0_peer_exchange) (l : request_list) :
    ∀ (d : persistent_discovery D) (t : tracker), t.is_set = false →
      (∀ req ∈ l, (reply req.1).leaves_tracker_unset = true) →
      l.foldl (fun acc req => run_reply C acc req (reply req.1)) (d, t)
        = (merge_peer_lists C reply l d, t) := by
  induction l with
  | nil => intro d t _ _; rfl
  | cons req rest ih =>
    intro d t ht hq
    have hreq := hq req (List.mem_cons_self _ _)
    have hrest : ∀ r ∈ rest, (reply r.1).leaves_tracker_unset = true :=
      fun r hr => hq r (List.mem_cons_of_mem _ hr)
    simp only [List.foldl_cons, merge_peer_lists]
    cases hrep : reply req.1 with
    | reply x =>
      cases x with
      | monostate =>
        simp only [run_reply, ht, Bool.false_eq_true, if_false]
        exact ih d t ht hrest
      | peer_list peers =>
        simp only [run_reply, ht, Bool.false_eq_true, if_false]
        exact ih _ t ht hrest
      | group0_info i =>
        rw [hrep] at hreq
        simp [rpc_result.leaves_tracker_unset] at hreq
    | failure e =>
      rw [hrep] at hreq
      simp only [rpc_result.leaves_tracker_unset] at hreq
      simp only [run_reply, hreq, if_true]
      exact ih d t ht hrest

/-- The outcome of a round by its first completion that sets the tracker: before it the
peer lists are merged, after it nothing changes. A round without such a completion ends
with `nullopt`. -/
theorem run_round_outcome {D AM : Type} (C : collaborators D AM) (env : environment)
    (clock : Nat) (self : persistent_discovery D) (requests : request_list) :
    (∀ pre w post, completion_order (env.completion_time clock) requests = pre ++ w :: post →
      (∀ req ∈ pre, (env.peer_exchange_reply clock req.1).leaves_tracker_unset = true) →
      (∀ g0_info, env.peer_exchange_reply clock w.1 = .reply (.group0_info g0_info) →
        run_round C env clock self requests =
          (merge_peer_lists C (env.peer_exchange_reply clock) pre self,
            { is_set := true, g0_info := some (.ok (some g0_info)) })) ∧
      (∀ e, env.peer_exchange_reply clock w.1 = .failure e → e.is_runtime_error = false →
        run_round C env clock self requests =
          (merge_peer_lists C (env.peer_exchange_reply clock) pre self,
            { is_set := true, g0_info := some (.error e) }))) ∧
    ((∀ req ∈ completion_order (env.completion_time clock) requests,
        (env.peer_exchange_reply clock req.1).leaves_tracker_unset = true) →
      run_round C env clock self requests =
        (merge_peer_lists C (env.peer_exchange_reply clock)
            (completion_order (env.completion_time clock) requests) self,
          { is_set := true, g0_info := some (.ok none) })) := by
  constructor
  · intro pre w post hsplit hpre
    have hfold := foldl_run_reply_unset C (env.peer_exchange_reply clock) pre self
      { is_set := false, g0_info := none } rfl hpre
    constructor
    · intro g0_info hw
      simp only [run_round, hsplit, List.foldl_append, List.foldl_cons, hfold]
      have hstep : run_reply C (merge_peer_lists C (env.peer_exchange_reply clock) pre self,
          { is_set := false, g0_info := none }) w (env.peer_exchange_reply clock w.1)
          = (merge_peer_lists C (env.peer_exchange_reply clock) pre self,
            { is_set := true, g0_info := some (.ok (some g0_info)) }) := by
        simp [run_reply, hw, tracker.set_value]
      rw [hstep, foldl_run_reply_of_set C _ post _ rfl]
      simp [tracker.set_value]
    · intro e hw hne
      simp only [run_round, hsplit, List.foldl_append, List.foldl_cons, hfold]
      have hstep : run_reply C (merge_peer_lists C (env.peer_exchange_reply clock) pre self,
          { is_set := false, g0_info := none }) w (env.peer_exchange_reply clock w.1)
          = (merge_peer_lists C (env.peer_exchange_reply clock) pre self,
            { is_set := true, g0_info := some (.error e) }) := by
        simp [run_reply, hw, hne, tracker.set_exception]
      rw [hstep, foldl_run_reply_of_set C _ post _ rfl]
      simp [tracker.set_value]
  · intro hall
    have hfold := foldl_run_reply_unset C (env.peer_exchange_reply clock)
      (completion_order (env.completion_time clock) requests) self
      { is_set := false, g0_info := none } rfl hall
    simp only [run_round, hfold]
    simp [tracker.set_value]

/-- One turn of the loop of `run` whose `tick` asks for requests: the requests are
fanned out and the loop returns, throws or goes on by what the tracker was given. -/
theorem run_request_list {D AM : Type} (C : collaborators D AM) (env : environment)
    (fuel : Nat) (my_addr : server_address) (st : run_state D) (requests : request_list)
    (htick : (persistent_discovery.tick C st.self st.qp).2.2 = .request_list requests) :
    persistent_discovery.run C env (fuel + 1) my_addr st =
      match (run_round C env st.clock (persistent_discovery.tick C st.self st.qp).1
          requests).2.g0_info with
      | some (.ok (some g0_info)) =>
        (st.after_round C requests (run_round C env st.clock
          (persistent_discovery.tick C st.self st.qp).1 requests).1, .value g0_info)
      | some (.ok none) =>
        persistent_discovery.run C env fuel my_addr
          (st.after_round C requests (run_round C env st.clock
            (persistent_discovery.tick C st.self st.qp).1 requests).1)
      | some (.error e) =>
        (st.after_round C requests (run_round C env st.clock
          (persistent_discovery.tick C st.self st.qp).1 requests).1, .thrown e)
      | none =>
        (st.after_round C requests (run_round C env st.clock
          (persistent_discovery.tick C st.self st.qp).1 requests).1, .out_of_fuel) := by
  simp only [persistent_discovery.run, htick, run_state.after_round]

/-- The requests that complete are the requests that were sent. -/
theorem mem_completion_order (time : server_address → Nat) (l : request_list)
    (r : server_address × peer_list) : r ∈ completion_order time l ↔ r ∈ l := by
  have hins : ∀ (x : server_address × peer_list) (m : request_list),
      r ∈ insert_by_time time x m ↔ r = x ∨ r ∈ m := by
    intro x m
    induction m with
    | nil => simp [insert_by_time]
    | cons y ys ih =>
      simp only [insert_by_time]
      split
      · simp
      · simp only [List.mem_cons, ih]
        constructor
        · rintro (h | h | h)
          · exact Or.inr (Or.inl h)
          · exact Or.inl h
          · exact Or.inr (Or.inr h)
        · rintro (h | h | h)
          · exact Or.inr (Or.inl h)
          · exact Or.inl h
          · exact Or.inr (Or.inr h)
  induction l with
  | nil => simp [completion_order]
  | cons x xs ih =>
    simp only [completion_order, hins, ih, List.mem_cons]

/-- Requests that all end in a failure merge no peer list. -/
theorem merge_peer_lists_of_failures {D AM : Type} (C : collaborators D AM)
    (reply : server_address → rpc_result group0_peer_exchange) (l : request_list)
    (self : persistent_discovery D) (h : ∀ req ∈ l, ∃ e, reply req.1 = .failure e) :
    merge_peer_lists C reply l self = self := by
  induction l with
  | nil => rfl
  | cons req rest ih =>
    obtain ⟨e, he⟩ := h req (List.mem_cons_self _ _)
    simp only [merge_peer_lists, List.foldl_cons, he]
    exact ih (fun r hr => h r (List.mem_cons_of_mem _ hr))

/-- C13 (as stated, refuted): in the round of the three-peer run the request to the peer
at address 9 is sent and fails with a non-transport failure, yet the run does not fail:
the peer at address 8 had answered before with the descriptor of group 5, which the run
returns. -/
theorem run_survives_late_failure :
    descriptor_then_failure_env.peer_exchange_reply 0 ⟨⟨0⟩, [9]⟩ = .failure (.other 3) ∧
    (error.other 3).is_runtime_error = false ∧
    event.send_group0_peer_exchange 9
        [⟨⟨1⟩, [7]⟩, ⟨⟨0⟩, [8]⟩, ⟨⟨0⟩, [9]⟩] ∈
      (persistent_discovery.run toy descriptor_then_failure_env 1 ⟨⟨1⟩, [7]⟩
        three_peer_run).1.trace ∧
    (persistent_discovery.run toy descriptor_then_failure_env 1 ⟨⟨1⟩, [7]⟩
      three_peer_run).2 = .value ⟨⟨5⟩, ⟨⟨2⟩, [8]⟩⟩ := by
  decide

/-- C13 (amended): failure policy of the peer-exchange fan-out in `run`. A transport
failure (runtime error) of the request to an individual peer is ignored, so a round in
which every request fails that way ends with no descriptor and the loop returns to
`tick`. Any other failure of a request makes the whole run fail with that failure when
it completes before anything has set the result of the round, that is before any
descriptor reply and any other such failure; once the result is set, a failure is
ignored. -/
theorem run_failure_policy {D AM : Type} (C : collaborators D AM) (env : environment)
    (fuel : Nat) (my_addr : server_address) (st : run_state D) (requests : request_list)
    (htick : (persistent_discovery.tick C st.self st.qp).2.2 = .request_list requests) :
    (∀ (acc : persistent_discovery D × tracker) (req : server_address × peer_list) (e : error),
      e.is_runtime_error = true → run_reply C acc req (.failure e) = acc) ∧
    ((∀ req ∈ requests, ∃ e, env.peer_exchange_reply st.clock req.1 = .failure e ∧
        e.is_runtime_error = true) →
      persistent_discovery.run C env (fuel + 1) my_addr st =
        persistent_discovery.run C env fuel my_addr
          (st.after_round C requests (persistent_discovery.tick C st.self st.qp).1)) ∧
    (∀ pre w post e,
      completion_order (env.completion_time st.clock) requests = pre ++ w :: post →
      (∀ req ∈ pre, (env.peer_exchange_reply st.clock req.1).leaves_tracker_unset = true) →
      env.peer_exchange_reply st.clock w.1 = .failure e → e.is_runtime_error = false →
      persistent_discovery.run C env (fuel + 1) my_addr st =
        (st.after_round C requests (merge_peer_lists C (env.peer_exchange_reply st.clock) pre
          (persistent_discovery.tick C st.self st.qp).1), .thrown e)) ∧
    (∀ (acc : persistent_discovery D × tracker) (req : server_address × peer_list) (e : error),
      acc.2.is_set = true → run_reply C acc req (.failure e) = acc) := by
  refine ⟨?_, ?_, ?_, ?_⟩
  · intro acc req e he
    simp [run_reply, he]
  · intro hall
    have hq : ∀ req ∈ completion_order (env.completion_time st.clock) requests,
        (env.peer_exchange_reply st.clock req.1).leaves_tracker_unset = true := by
      intro req hreq
      obtain ⟨e, he, hr⟩ := hall req ((mem_completion_order _ _ _).1 hreq)
      rw [he]
      exact hr
    have hm : merge_peer_lists C (env.peer_exchange_reply st.clock)
        (completion_order (env.completion_time st.clock) requests)
        (persistent_discovery.tick C st.self st.qp).1
        = (persistent_discovery.tick C st.self st.qp).1 := by
      apply merge_peer_lists_of_failures
      intro req hreq
      obtain ⟨e, he, -⟩ := hall req ((mem_completion_order _ _ _).1 hreq)
      exact ⟨e, he⟩
    rw [run_request_list C env fuel my_addr st requests htick,
      (run_round_outcome C env st.clock _ requests).2 hq, hm]
  · intro pre w post e hsplit hpre hw hne
    rw [run_request_list C env fuel my_addr st requests htick,
      ((run_round_outcome C env st.clock _ requests).1 pre w post hsplit hpre).2 e hw hne]
  · intro acc req e hset
    exact run_reply_of_set C acc req _ hset

/-- C13 (amended), on the three-peer run: when both requests fail with a transport error
the loop goes on to the next `tick`, and when the first request to complete fails
unexpectedly the run throws that failure. -/
theorem run_failure_policy_witness :
    persistent_discovery.run toy quiet_env 1 ⟨⟨1⟩, [7]⟩ three_peer_run =
      persistent_discovery.run toy quiet_env 0 ⟨⟨1⟩, [7]⟩
        (three_peer_run.after_round toy
          [(⟨⟨0⟩, [8]⟩, [⟨⟨1⟩, [7]⟩, ⟨⟨0⟩, [8]⟩, ⟨⟨0⟩, [9]⟩]),
           (⟨⟨0⟩, [9]⟩, [⟨⟨1⟩, [7]⟩, ⟨⟨0⟩, [8]⟩, ⟨⟨0⟩, [9]⟩])]
          (persistent_discovery.tick toy three_peer_run.self three_peer_run.qp).1) ∧
    (persistent_discovery.run toy failing_env 1 ⟨⟨1⟩, [7]⟩ three_peer_run).2
      = .thrown (.other 3) :=
  ⟨(run_failure_policy toy quiet_env 0 ⟨⟨1⟩, [7]⟩ three_peer_run _ rfl).2.1
      (fun _ _ => ⟨.transport 0, rfl, rfl⟩),
    by
      rw [(run_failure_policy toy failing_env 0 ⟨⟨1⟩, [7]⟩ three_peer_run _ rfl).2.2.1
        [] (⟨⟨0⟩, [8]⟩, [⟨⟨1⟩, [7]⟩, ⟨⟨0⟩, [8]⟩, ⟨⟨0⟩, [9]⟩])
        [(⟨⟨0⟩, [9]⟩, [⟨⟨1⟩, [7]⟩, ⟨⟨0⟩, [8]⟩, ⟨⟨0⟩, [9]⟩])] (.other 3)
        (by decide) (by simp) rfl rfl]⟩

/-- C14: first responder wins in `run`. The result of a round is set at most once: once
`is_set` holds, `set_value` and `set_exception` have no effect. In a round where no
non-transport failure completes earlier: if a reply carries a group-0 descriptor, `run`
returns the descriptor of the first such reply to complete, the peer-list replies that
completed before it are merged via `response`, and every request completing after it
changes neither the result nor the discovery state; if no reply carries a descriptor (and
no non-transport failure completes in the round), `run` does not return from the round
and calls `tick` again. -/
theorem run_first_responder_wins {D AM : Type} (C : collaborators D AM) (env : environment)
    (fuel : Nat) (my_addr : server_address) (st : run_state D) (requests : request_list)
    (htick : (persistent_discovery.tick C st.self st.qp).2.2 = .request_list requests) :
    (∀ (t : tracker) (v : Option group0_info) (e : error), t.is_set = true →
      t.set_value v = t ∧ t.set_exception e = t) ∧
    (∀ pre w post g0_info,
      completion_order (env.completion_time st.clock) requests = pre ++ w :: post →
      (∀ req ∈ pre, (env.peer_exchange_reply st.clock req.1).leaves_tracker_unset = true) →
      env.peer_exchange_reply st.clock w.1 = .reply (.group0_info g0_info) →
      persistent_discovery.run C env (fuel + 1) my_addr st =
        (st.after_round C requests (merge_peer_lists C (env.peer_exchange_reply st.clock) pre
          (persistent_discovery.tick C st.self st.qp).1), .value g0_info) ∧
      post.foldl (fun acc req => run_reply C acc req (env.peer_exchange_reply st.clock req.1))
          (merge_peer_lists C (env.peer_exchange_reply st.clock) pre
            (persistent_discovery.tick C st.self st.qp).1,
            { is_set := true, g0_info := some (.ok (some g0_info)) }) =
        (merge_peer_lists C (env.peer_exchange_reply st.clock) pre
          (persistent_discovery.tick C st.self st.qp).1,
          { is_set := true, g0_info := some (.ok (some g0_info)) })) ∧
    ((∀ req ∈ completion_order (env.completion_time st.clock) requests,
        (env.peer_exchange_reply st.clock req.1).leaves_tracker_unset = true) →
      persistent_discovery.run C env (fuel + 1) my_addr st =
        persistent_discovery.run C env fuel my_addr
          (st.after_round C requests (merge_peer_lists C (env.peer_exchange_reply st.clock)
            (completion_order (env.completion_time st.clock) requests)
            (persistent_discovery.tick C st.self st.qp).1))) := by
  refine ⟨fun t v e h => tracker_set_once t h v e, ?_, ?_⟩
  · intro pre w post g0_info hsplit hpre hw
    constructor
    · rw [run_request_list C env fuel my_addr st requests htick,
        ((run_round_outcome C env st.clock _ requests).1 pre w post hsplit hpre).1 g0_info hw]
    · exact foldl_run_reply_of_set C _ post _ rfl
  · intro hall
    rw [run_request_list C env fuel my_addr st requests htick,
      (run_round_outcome C env st.clock _ requests).2 hall]

/-- C14, on the three-peer run: the peer at address 9 answers first with a peer list
naming node 3, the peer at address 8 then answers with the descriptor of group 5; `run`
returns that descriptor and node 3 has been merged into the known peers. -/
theorem run_first_responder_wins_witness :
    (persistent_discovery.run toy peer_list_then_descriptor_env 1 ⟨⟨1⟩, [7]⟩
      three_peer_run).2 = .value ⟨⟨5⟩, ⟨⟨2⟩, [8]⟩⟩ ∧
    toy.discovery_peers (persistent_discovery.run toy peer_list_then_descriptor_env 1
      ⟨⟨1⟩, [7]⟩ three_peer_run).1.self._discovery =
      [⟨⟨1⟩, [7]⟩, ⟨⟨0⟩, [8]⟩, ⟨⟨0⟩, [9]⟩, ⟨⟨3⟩, [10]⟩] :=
  have h := ((run_first_responder_wins toy peer_list_then_descriptor_env 0 ⟨⟨1⟩, [7]⟩
    three_peer_run _ rfl).2.1
      [(⟨⟨0⟩, [9]⟩, [⟨⟨1⟩, [7]⟩, ⟨⟨0⟩, [8]⟩, ⟨⟨0⟩, [9]⟩])]
      (⟨⟨0⟩, [8]⟩, [⟨⟨1⟩, [7]⟩, ⟨⟨0⟩, [8]⟩, ⟨⟨0⟩, [9]⟩]) []
      ⟨⟨5⟩, ⟨⟨2⟩, [8]⟩⟩ (by decide) (by decide) rfl).1
  ⟨by rw [h], by rw [h]; decide⟩

/-! ## The invariant of the bootstrap phase -/

end service
